import Mathlib

/-!
Verification development for the `vibe` deploy CLI (`src/vibe/cli.py`).

The Python source is shallowly embedded: pure string manipulation is
translated to structural functions on `List Char` / `String`, the
filesystem and process collaborators (command exits, file existence,
file contents) are abstracted as explicit oracle parameters, and the
observable state that functions mutate (published static directories,
the registry document, written files) is threaded explicitly.  Fallible
paths return `Except`, with the error value carrying the state at the
point of abort, so that "abort leaves the state unchanged" is a real
statement.  Python truthiness on optional strings (`if x:`) is modelled
by `pyTruthy`, and `x or y` on strings by `pyOrS`.  The whitespace
classes of `str.strip()` and regex `\s` are modelled at their ASCII
core.
-/

namespace Vibe

/-! ### Characters and Python string primitives -/

/-- ASCII core of the Python whitespace class used by `str.strip()` and regex `\s`. -/
def pyIsSpace (c : Char) : Bool :=
  c.toNat = 32 || c.toNat = 9 || c.toNat = 10 || c.toNat = 13 || c.toNat = 11 || c.toNat = 12

/-- Characters kept by `slugify`: the class `[a-z0-9-]` of `cli.py` line 191. -/
def isAllowed (c : Char) : Bool :=
  (97 ≤ c.toNat && c.toNat ≤ 122) || (48 ≤ c.toNat && c.toNat ≤ 57) || c.toNat = 45

/-- Drop a trailing run of characters satisfying `p` (the right half of `str.strip`). -/
def dropTrailIf (p : Char → Bool) : List Char → List Char
  | [] => []
  | c :: rest =>
    match dropTrailIf p rest with
    | [] => if p c then [] else [c]
    | r => c :: r

/-- Python `str.strip`: drop leading and trailing characters satisfying `p`. -/
def pyStrip (p : Char → Bool) (l : List Char) : List Char :=
  dropTrailIf p (l.dropWhile p)

/-- Replace every maximal run of characters outside `[a-z0-9-]` by a single hyphen:
`re.sub(r"[^a-z0-9\-]+", "-", s)` (`cli.py` line 191).  The flag records whether the
previous character was part of a disallowed run (whose hyphen is already emitted). -/
def replaceBadAux : Bool → List Char → List Char
  | _, [] => []
  | true, c :: rest =>
    if isAllowed c then c :: replaceBadAux false rest else replaceBadAux true rest
  | false, c :: rest =>
    if isAllowed c then c :: replaceBadAux false rest else '-' :: replaceBadAux true rest

def replaceBad (l : List Char) : List Char := replaceBadAux false l

/-- Collapse every run of two or more hyphens to a single hyphen:
`re.sub(r"-{2,}", "-", s)` (`cli.py` line 192).  The flag records whether the
previous character was a hyphen already emitted. -/
def collapseDashAux : Bool → List Char → List Char
  | _, [] => []
  | true, c :: rest =>
    if c = '-' then collapseDashAux true rest else c :: collapseDashAux false rest
  | false, c :: rest =>
    if c = '-' then '-' :: collapseDashAux true rest else c :: collapseDashAux false rest

def collapseDash (l : List Char) : List Char := collapseDashAux false l

/-- No two adjacent hyphens. -/
def noDoubleDash : List Char → Bool
  | [] => true
  | [_] => true
  | a :: b :: rest => !(a = '-' && b = '-') && noDoubleDash (b :: rest)

/-- Python `s.lower()` at its ASCII core. -/
def pyLowerL (l : List Char) : List Char := l.map Char.toLower

/-- The normalisation pipeline of `slugify` before the `or "app"` fallback
(`cli.py` lines 190-193): strip whitespace, lowercase, replace runs of
disallowed characters by a hyphen, collapse repeated hyphens, strip hyphens. -/
def normalizeSlug (s : List Char) : List Char :=
  pyStrip (fun c => c = '-') (collapseDash (replaceBad (pyLowerL (pyStrip pyIsSpace s))))

/-- Embedding of `slugify` (`cli.py` lines 189-193), on character lists. -/
def slugify (s : List Char) : List Char :=
  let r := normalizeSlug s
  if r = [] then ['a', 'p', 'p'] else r

/-- The `slugify` function on `String`. -/
def slugifyS (s : String) : String := String.mk (slugify s.data)

/-- A character list that is a fixed point of the slug normalisation: every character
in `[a-z0-9-]`, no doubled hyphen, no leading or trailing hyphen. -/
def GoodSlug (l : List Char) : Prop :=
  (∀ c ∈ l, isAllowed c = true) ∧ noDoubleDash l = true ∧
    (∀ a, l.head? = some a → a ≠ '-') ∧ (∀ a, l.getLast? = some a → a ≠ '-')

/-! ### Python truthiness and small helpers -/

/-- Python truthiness of an optional string (`if x:` on a `str | None`). -/
def pyTruthy : Option String → Bool
  | some s => s != ""
  | none => false

/-- Python `x or d` where `x` is an optional string. -/
def pyOrS : Option String → String → String
  | some s, d => if s = "" then d else s
  | none, d => d

/-- Python `s or d` on strings. -/
def pyOrStr (s d : String) : String := if s = "" then d else s

/-- Python `s.lower()` on `String`, at its ASCII core. -/
def pyLower (s : String) : String := String.mk (pyLowerL s.data)

/-- Python `s.startswith(pre)`. -/
def pyStartswith (s pre : String) : Bool := pre.data.isPrefixOf s.data

/-- Python `s.endswith(suf)`. -/
def pyEndswith (s suf : String) : Bool := suf.data.isSuffixOf s.data

/-! ### Environment maps (Python dict with string keys, insertion semantics) -/

abbrev EnvMap := List (String × String)

/-- Python `d[k] = v`: replace the binding if the key is present, else append. -/
def setAssoc {β : Type} : List (String × β) → String → β → List (String × β)
  | [], k, v => [(k, v)]
  | (k', v') :: rest, k, v =>
    if k' = k then (k, v) :: rest else (k', v') :: setAssoc rest k v

/-- Python `del d[k]` (first binding). -/
def removeAssoc {β : Type} : List (String × β) → String → List (String × β)
  | [], _ => []
  | (k', v') :: rest, k => if k' = k then rest else (k', v') :: removeAssoc rest k

/-- Split at the first `=`, Python `line.split("=", 1)` when `=` occurs. -/
def splitFirstEq : List Char → Option (List Char × List Char)
  | [] => none
  | c :: rest =>
    if c = '=' then some ([], rest)
    else
      match splitFirstEq rest with
      | some ab => some (c :: ab.1, ab.2)
      | none => none

/-- One line of an env file (`cli.py` lines 290-295): strip, skip blank lines,
comments and lines without `=`, split at the first `=`, strip key and value. -/
def parseEnvLine (line : String) : Option (String × String) :=
  let l := pyStrip pyIsSpace line.data
  if l = [] then none
  else if l.head? = some '#' then none
  else
    match splitFirstEq l with
    | none => none
    | some kv => some (String.mk (pyStrip pyIsSpace kv.1), String.mk (pyStrip pyIsSpace kv.2))

/-- Pass-through of whitelisted ambient variables (`cli.py` lines 285-287 and 126-128):
`for name in names: if name in ambient: env[name] = ambient[name]`. -/
def applyWhitelist (ambient : EnvMap) (names : List String) (e : EnvMap) : EnvMap :=
  names.foldl
    (fun acc name =>
      match ambient.lookup name with
      | some v => setAssoc acc name v
      | none => acc) e

/-- Layer the parsed lines of an env file onto an environment (`cli.py` lines 289-295). -/
def applyEnvFile (lines : List String) (e : EnvMap) : EnvMap :=
  lines.foldl
    (fun acc line =>
      match parseEnvLine line with
      | some kv => setAssoc acc kv.1 kv.2
      | none => acc) e

/-- The value the env file assigns to key `k` (last assigning line wins), if any. -/
def envFileLast (lines : List String) (k : String) : Option String :=
  match lines with
  | [] => none
  | line :: rest =>
    match envFileLast rest k with
    | some v => some v
    | none =>
      match parseEnvLine line with
      | some kv => if kv.1 = k then some kv.2 else none
      | none => none

/-- Build configuration of a `static`/`spa` manifest (`build:` section). -/
structure BuildCfg where
  install : Option String := none
  command : Option String := none
  output_dir : Option String := none
  base_path_env : Option String := none
  use_docker : Bool := false
  image : String := "node:20-alpine"
  env : List String := []
  env_file : Option String := none
deriving DecidableEq

/-- The `base_path_env` injection (`cli.py` lines 280-282): if requested, set the
named variable to `/app/<id>/` on top of the ambient copy. -/
def basePathLayer (ambient : EnvMap) (appId : String) (cfg : BuildCfg) : EnvMap :=
  if pyTruthy cfg.base_path_env then
    setAssoc ambient (cfg.base_path_env.getD "") ("/app/" ++ appId ++ "/")
  else ambient

/-- The env-file layer (`cli.py` lines 288-296): applied only when an env file is
configured and exists (its lines are the `content` oracle; `none` = missing file). -/
def envFileLayer (cfg : BuildCfg) (content : Option (List String)) (e : EnvMap) : EnvMap :=
  if pyTruthy cfg.env_file then
    match content with
    | some lines => applyEnvFile lines e
    | none => e
  else e

/-- The effective build environment composed by the static path of `deploy`
(`cli.py` lines 277-296), in the source's order: ambient copy, then the
`base_path_env` injection, then whitelisted ambient names, then env-file lines. -/
def staticBuildEnv (ambient : EnvMap) (appId : String) (cfg : BuildCfg)
    (envFileContent : Option (List String)) : EnvMap :=
  envFileLayer cfg envFileContent
    (applyWhitelist ambient cfg.env (basePathLayer ambient appId cfg))

/-- The env-file layer's effective assignment to `k` in `staticBuildEnv`. -/
def envFileEffLast (cfg : BuildCfg) (content : Option (List String)) (k : String) :
    Option String :=
  if pyTruthy cfg.env_file then
    match content with
    | some lines => envFileLast lines k
    | none => none
  else none

/-! ### Port inference (`cli.py` lines 16-38) -/

def takeDigits (l : List Char) : List Char := l.takeWhile (fun c => c.isDigit)

def digitsToNat (ds : List Char) : Nat := ds.foldl (fun n c => n * 10 + (c.toNat - 48)) 0

/-- Match a literal character sequence at the head, returning the remainder. -/
def matchLit : List Char → List Char → Option (List Char)
  | [], rest => some rest
  | _ :: _, [] => none
  | c :: cs, d :: ds => if d = c then matchLit cs ds else none

/-- Case-insensitive `matchLit` (pattern given in lowercase). -/
def matchLitCI : List Char → List Char → Option (List Char)
  | [], rest => some rest
  | _ :: _, [] => none
  | c :: cs, d :: ds => if d.toLower = c then matchLitCI cs ds else none

/-- Regex fragment `(\d+)` at the head: a nonempty greedy digit run, as a number. -/
def matchDigitsHere (l : List Char) : Option Nat :=
  let ds := takeDigits l
  if ds = [] then none else some (digitsToNat ds)

/-- Regex fragment `\s+(\d+)` at the head. -/
def matchWsDigits (l : List Char) : Option Nat :=
  if l.takeWhile pyIsSpace = [] then none
  else matchDigitsHere (l.dropWhile pyIsSpace)

/-- Pattern `--port\s+(\d+)` anchored at the head. -/
def portFlagLong (l : List Char) : Option Nat :=
  match matchLit ("--port".data) l with
  | some rest => matchWsDigits rest
  | none => none

/-- Pattern `--port=(\d+)` anchored at the head. -/
def portFlagEq (l : List Char) : Option Nat :=
  match matchLit ("--port=".data) l with
  | some rest => matchDigitsHere rest
  | none => none

/-- Pattern `-p\s+(\d+)` anchored at the head. -/
def portFlagShort (l : List Char) : Option Nat :=
  match matchLit ("-p".data) l with
  | some rest => matchWsDigits rest
  | none => none

/-- Model of `re.search`: try the anchored matcher at every position, leftmost wins. -/
def searchWith (f : List Char → Option Nat) : List Char → Option Nat
  | [] => none
  | c :: rest =>
    match f (c :: rest) with
    | some n => some n
    | none => searchWith f rest

/-- Embedding of `infer_port_from_start` (`cli.py` lines 24-32): try the three flag patterns in order. -/
def infer_port_from_start (start : String) : Option Nat :=
  if start = "" then none
  else
    match searchWith portFlagLong start.data with
    | some n => some n
    | none =>
      match searchWith portFlagEq start.data with
      | some n => some n
      | none => searchWith portFlagShort start.data

/-- Pattern `\s*EXPOSE\s+(\d+)` (case-insensitive) anchored at the head; `\s` may
cross newlines, as in the multiline regex of the source. -/
def exposeAt (l : List Char) : Option Nat :=
  match matchLitCI ("expose".data) (l.dropWhile pyIsSpace) with
  | some rest => matchWsDigits rest
  | none => none

/-- Scan for the multiline-anchored pattern: try `exposeAt` at the text start and
after every newline, leftmost match first. -/
def scanExpose : List Char → Bool → Option Nat
  | [], _ => none
  | c :: rest, atStart =>
    match (if atStart then exposeAt (c :: rest) else none) with
    | some n => some n
    | none => scanExpose rest (c = '\n')

/-- Embedding of `infer_port_from_dockerfile` (`cli.py` lines 16-22); `none` content models an
unreadable file (the `except` branch). -/
def infer_port_from_dockerfile (content : Option (List Char)) : Option Nat :=
  match content with
  | none => none
  | some txt => scanExpose txt true

/-- Embedding of `default_port_for_runtime` (`cli.py` lines 34-38). -/
def default_port_for_runtime (runtime : String) : Nat :=
  if pyLower runtime = "python" then 8000 else 3000

/-! ### Registry (`cli.py` lines 195-203 and 336-356) -/

def VIBES_HOST : String := "vibes.chaoticbest.com"

def APPS_ROOT : String := "/srv/vibes/apps"

def STATIC_ROOT : String := "/srv/vibes/static"

/-- One registry record (`reg["apps"][app_id]`). -/
structure AppEntry where
  id : String
  name : String
  type : String
  repo : String
  link_app : String
  link_blog : String
  link_github : String
  created_at : Nat
  updated_at : Nat
  meta : List (String × String)
deriving DecidableEq

/-- The registry update of `deploy` (`cli.py` lines 336-356): keep `created_at`
from an existing record, refresh `updated_at` to `now`, overwrite every other
field from the new deploy's inputs. -/
def registryUpsert (reg : List (String × AppEntry)) (appId : String)
    (nameOpt : Option String) (typ repoUrl : String)
    (metaOpt : Option (List (String × String))) (now : Nat) : List (String × AppEntry) :=
  let created :=
    match reg.lookup appId with
    | some e => e.created_at
    | none => now
  setAssoc reg appId
    { id := appId
      name := pyOrS nameOpt appId
      type := typ
      repo := repoUrl
      link_app := "https://" ++ VIBES_HOST ++ "/app/" ++ appId ++ "/"
      link_blog := "https://" ++ VIBES_HOST ++ "/blog/" ++ appId
      link_github :=
        if pyStartswith repoUrl "http" then repoUrl else "https://github.com/" ++ repoUrl
      created_at := created
      updated_at := now
      meta := metaOpt.getD [] }

/-! ### Server strategy (`cli.py` lines 40-152) -/

/-- Server configuration of a `server` manifest (`server:` section).  The `port`
field exists in the manifest schema; whether the code reads it is a theorem. -/
structure ServerCfg where
  runtime : Option String := none
  install : Option String := none
  start : Option String := none
  port : Option Nat := none
  dockerfile : Option String := none
  env : List String := []
  env_file : Option String := none
deriving DecidableEq

inductive ComposeErr where
  | unknownRuntime
  | dockerfileMissing
deriving DecidableEq

/-- Files and directories created so far (paths only; content abstracted). -/
structure FileState where
  files : List String
  dirs : List String
deriving DecidableEq

/-- The compose service definition assembled by `write_compose` (`cli.py` 130-148). -/
structure ComposeOut where
  buildContext : String
  dockerfilePath : String
  image : String
  labels : List String
  env : EnvMap
  envFiles : List String
deriving DecidableEq

/-- Model of `slugify(app_id).replace("-", "_")` (`cli.py` line 41). -/
def underscoreSlug (appId : String) : String :=
  String.mk ((slugifyS appId).data.map (fun c => if c = '-' then '_' else c))

/-- Embedding of `make_traefik_labels` (`cli.py` lines 40-56). -/
def make_traefik_labels (appId : String) (internalPort : Option Nat) : List String :=
  let rid := underscoreSlug appId
  let base := [
    "traefik.enable=true",
    "traefik.http.routers." ++ rid ++ ".rule=Host(`" ++ VIBES_HOST ++
      "`) && PathPrefix(`/app/" ++ appId ++ "`)",
    "traefik.http.routers." ++ rid ++ ".entrypoints=web,websecure",
    "traefik.http.routers." ++ rid ++ ".tls=true",
    "traefik.http.routers." ++ rid ++ ".tls.certresolver=le",
    "traefik.http.routers." ++ rid ++ ".priority=100",
    "traefik.http.middlewares." ++ rid ++ "-strip.stripprefix.prefixes=/app/" ++ appId,
    "traefik.http.routers." ++ rid ++ ".middlewares=" ++ rid ++ "-strip"]
  match internalPort with
  | some p =>
    if p ≠ 0 then
      base ++ ["traefik.http.services." ++ rid ++ ".loadbalancer.server.port=" ++ toString p]
    else base
  | none => base

/-- Embedding of `generate_dockerfile` (`cli.py` lines 59-96).  The Dockerfile's text content is
abstracted; the written path is recorded in the file state.  The port is
`infer_port_from_start(start) or default_port_for_runtime(runtime)` — Python `or`,
so a parsed port `0` also falls back to the default. -/
def generate_dockerfile (appId : String) (cfg : ServerCfg) (fs : FileState) :
    Except (ComposeErr × FileState) (String × Nat × FileState) :=
  let runtime := pyLower (cfg.runtime.getD "")
  let start := cfg.start.getD ""
  let port :=
    match infer_port_from_start start with
    | some p => if p = 0 then default_port_for_runtime runtime else p
    | none => default_port_for_runtime runtime
  let ddir := APPS_ROOT ++ "/" ++ slugifyS appId ++ "/.deploy"
  let fs1 : FileState := { files := fs.files, dirs := ddir :: fs.dirs }
  let out := ddir ++ "/Dockerfile.generated"
  if runtime = "node" then .ok (out, port, { files := out :: fs1.files, dirs := fs1.dirs })
  else if runtime = "python" then
    .ok (out, port, { files := out :: fs1.files, dirs := fs1.dirs })
  else .error (.unknownRuntime, fs1)

/-- Embedding of `write_compose` (`cli.py` lines 98-152).  `fileLines` is the filesystem oracle
giving the content of a named Dockerfile (`none` = missing/unreadable). -/
def write_compose (appId repoDir : String) (cfg : ServerCfg)
    (fileLines : String → Option (List Char)) (ambient : EnvMap) (fs : FileState) :
    Except (ComposeErr × FileState) (ComposeOut × FileState) :=
  let sid := slugifyS appId
  let ddir := APPS_ROOT ++ "/" ++ sid ++ "/.deploy"
  let fs0 : FileState := { files := fs.files, dirs := ddir :: fs.dirs }
  let step1 : Except (ComposeErr × FileState) (String × Option Nat × FileState) :=
    if pyTruthy cfg.dockerfile then
      let dfPath := repoDir ++ "/" ++ cfg.dockerfile.getD ""
      match fileLines dfPath with
      | none => .error (.dockerfileMissing, fs0)
      | some txt => .ok (dfPath, infer_port_from_dockerfile (some txt), fs0)
    else
      match generate_dockerfile sid cfg fs0 with
      | .error e => .error e
      | .ok dpf => .ok (dpf.1, some dpf.2.1, dpf.2.2)
  match step1 with
  | .error e => .error e
  | .ok dpf =>
    let dfPath := dpf.1
    let port1 :=
      match dpf.2.1 with
      | some p => some p
      | none => infer_port_from_start (cfg.start.getD "")
    let internal :=
      match port1 with
      | some p => p
      | none => default_port_for_runtime (cfg.runtime.getD "")
    let envMap := applyWhitelist ambient cfg.env [("PORT", toString internal)]
    let out : ComposeOut :=
      { buildContext := repoDir
        dockerfilePath := dfPath
        image := "vibe-" ++ sid ++ ":latest"
        labels := make_traefik_labels sid (some internal)
        env := envMap
        envFiles := if pyTruthy cfg.env_file then [cfg.env_file.getD ""] else [] }
    .ok (out, { files := (ddir ++ "/docker-compose.yml") :: dpf.2.2.files, dirs := dpf.2.2.dirs })

/-- The `PORT` entry of a produced compose service environment, if the call succeeded. -/
def composePortOf (r : Except (ComposeErr × FileState) (ComposeOut × FileState)) :
    Option String :=
  match r with
  | .ok of => of.1.env.lookup "PORT"
  | .error _ => none

/-- The routing labels of a produced compose service, if the call succeeded. -/
def composeLabelsOf (r : Except (ComposeErr × FileState) (ComposeOut × FileState)) :
    List String :=
  match r with
  | .ok of => of.1.labels
  | .error _ => []

/-! ### Static strategy (`cli.py` lines 205-227 and 271-356) -/

inductive BuildErr where
  | cmdFailed
  | outputMissing
deriving DecidableEq

/-- The state a static deploy can change: the published static directories
(app id to an abstract content tag) and the registry document. -/
structure StaticState where
  static : List (String × Nat)
  registry : List (String × AppEntry)
deriving DecidableEq

/-- Oracle for the external collaborators of a static deploy: exit codes of the
install/build subprocesses (or of the single docker-run combining them), path
existence, and an abstract content tag for directories. -/
structure ExecOracle where
  installExit : Nat
  buildExit : Nat
  dockerExit : Nat
  pathExists : String → Bool
  dirTag : String → Nat

/-- Embedding of `guess_output_dir` (`cli.py` lines 205-210): probe `dist`, `build`, `public`
in order, else the checkout root itself. -/
def guess_output_dir (ex : String → Bool) (repoDir : String) : String :=
  if ex (repoDir ++ "/dist") then repoDir ++ "/dist"
  else if ex (repoDir ++ "/build") then repoDir ++ "/build"
  else if ex (repoDir ++ "/public") then repoDir ++ "/public"
  else repoDir

/-- Output directory choice of the static path (`cli.py` lines 312-314). -/
def resolveOutputDir (cfg : BuildCfg) (ex : String → Bool) (repoDir : String) : String :=
  if pyTruthy cfg.output_dir then repoDir ++ "/" ++ cfg.output_dir.getD ""
  else guess_output_dir ex repoDir

/-- Steps of the static path after the build commands (`cli.py` lines 312-322 and
336-356): locate output, fail if absent, publish (replace), upsert registry. -/
def deployStaticRest (appId repoDir : String) (cfg : BuildCfg) (nameOpt : Option String)
    (typ repoUrl : String) (metaOpt : Option (List (String × String)))
    (ox : ExecOracle) (now : Nat) (st : StaticState) :
    Except (BuildErr × StaticState) StaticState :=
  let outputDir := resolveOutputDir cfg ox.pathExists repoDir
  if ox.pathExists outputDir then
    .ok { static := setAssoc st.static appId (ox.dirTag outputDir),
          registry := registryUpsert st.registry appId nameOpt typ repoUrl metaOpt now }
  else .error (.outputMissing, st)

/-- The static path of `deploy` (`cli.py` lines 271-356).  A non-zero exit of a
configured install/build command (or of the docker run combining them) raises
before any publish or registry write; the error carries the state at abort. -/
def deployStatic (appId repoDir : String) (cfg : BuildCfg) (nameOpt : Option String)
    (typ repoUrl : String) (metaOpt : Option (List (String × String)))
    (ox : ExecOracle) (now : Nat) (st : StaticState) :
    Except (BuildErr × StaticState) StaticState :=
  if cfg.use_docker then
    if (pyTruthy cfg.install || pyTruthy cfg.command) && (ox.dockerExit != 0) then
      .error (.cmdFailed, st)
    else deployStaticRest appId repoDir cfg nameOpt typ repoUrl metaOpt ox now st
  else
    if pyTruthy cfg.install && (ox.installExit != 0) then .error (.cmdFailed, st)
    else if pyTruthy cfg.command && (ox.buildExit != 0) then .error (.cmdFailed, st)
    else deployStaticRest appId repoDir cfg nameOpt typ repoUrl metaOpt ox now st

/-! ### Undeploy (`cli.py` lines 362-435) -/

/-- The per-id filesystem facts and the registry that `undeploy` touches. -/
structure UndeployState where
  composeFileExists : Bool
  staticDirExists : Bool
  blogExists : Bool
  workDirExists : Bool
  registry : List (String × AppEntry)
deriving DecidableEq

/-- What each best-effort step of `undeploy` reported: `true` = something was
removed/stopped, `false` = nothing to do; `workRemoved = none` = purge not requested. -/
structure UndeployReport where
  stackDowned : Bool
  staticRemoved : Bool
  blogRemoved : Bool
  registryRemoved : Bool
  workRemoved : Option Bool
deriving DecidableEq

/-- Embedding of `undeploy` (`cli.py` lines 362-435).  `confirm` is the interactive answer
oracle; declining aborts with exit code 1.  Every removal step is best-effort:
a missing target is reported as a no-op, never an error. -/
def undeploy (appIdRaw : String) (purge yes confirm : Bool) (st : UndeployState) :
    Except Nat (UndeployReport × UndeployState) :=
  let sid := slugifyS appIdRaw
  let existsInRegistry := (st.registry.lookup sid).isSome
  if !yes && !confirm then .error 1
  else
    let stackDowned := st.composeFileExists
    let staticRemoved := st.staticDirExists
    let st1 : UndeployState :=
      { composeFileExists := st.composeFileExists, staticDirExists := false,
        blogExists := st.blogExists, workDirExists := st.workDirExists,
        registry := st.registry }
    let blogRemoved := st1.blogExists
    let st2 : UndeployState := { st1 with blogExists := false }
    let st3 :=
      if existsInRegistry then { st2 with registry := removeAssoc st2.registry sid } else st2
    let st4 := if purge then { st3 with workDirExists := false } else st3
    .ok ({ stackDowned := stackDowned, staticRemoved := staticRemoved,
           blogRemoved := blogRemoved, registryRemoved := existsInRegistry,
           workRemoved := if purge then some st3.workDirExists else none }, st4)

/-! ### Orchestrator id resolution (`cli.py` lines 246-263) -/

/-- Python `repo[:-1] if repo.endswith("/") else repo` (`cli.py` line 247). -/
def stripTrailingSlash (repo : String) : String :=
  if pyEndswith repo "/" then String.mk repo.data.dropLast else repo

/-- The part after the last `/` (`pathlib.Path(...).name`). -/
def afterLastSlash (l : List Char) : List Char :=
  (l.reverse.takeWhile (fun c => c != '/')).reverse

/-- Index of the last `.`, Python `name.rfind('.')` when non-negative. -/
def lastDotIdx (l : List Char) : Option Nat :=
  match l.reverse.findIdx? (fun c => c == '.') with
  | some j => some (l.length - 1 - j)
  | none => none

/-- Model of `pathlib.Path(s).stem`: the final path component without its last suffix. -/
def pathStem (s : String) : String :=
  let name := afterLastSlash s.data
  match lastDotIdx name with
  | some i =>
    if 0 < i ∧ i < name.length - 1 then String.mk (name.take i) else String.mk name
  | none => String.mk name

/-- The app id after `app_id = slugify(app_id or inferred)` (`cli.py` lines 247-249),
before any manifest override. -/
def preOverrideId (repo : String) (appIdOpt : Option String) : String :=
  let repoUrl := stripTrailingSlash repo
  let inferred := slugifyS (pathStem repoUrl)
  slugifyS (pyOrS appIdOpt inferred)

/-- The app id after the manifest override `app_id = slugify(cfg["id"]) or app_id`
(`cli.py` lines 262-263). -/
def finalAppId (repo : String) (appIdOpt cfgId : Option String) : String :=
  let pre := preOverrideId repo appIdOpt
  match cfgId with
  | some cid => pyOrStr (slugifyS cid) pre
  | none => pre

/-- The id-keyed paths used by one deploy invocation. -/
structure DeployPaths where
  workDir : String
  repoDir : String
  staticDest : String
  deployDir : String
  registryKey : String
deriving DecidableEq

/-- Which id keys each artifact of `deploy`: the checkout work dir (`cli.py` lines
250-251) is computed before the manifest override, the static destination (line
320), the compose scratch dir (lines 99-100) and the registry key (line 355) after. -/
def deployPaths (repo : String) (appIdOpt cfgId : Option String) : DeployPaths :=
  let pre := preOverrideId repo appIdOpt
  let fin := finalAppId repo appIdOpt cfgId
  { workDir := APPS_ROOT ++ "/" ++ pre
    repoDir := APPS_ROOT ++ "/" ++ pre ++ "/repo"
    staticDest := STATIC_ROOT ++ "/" ++ fin
    deployDir := APPS_ROOT ++ "/" ++ slugifyS fin ++ "/.deploy"
    registryKey := fin }

/-! ### Concrete inputs used by counterexamples and witnesses -/

/-- The manifest of the claimed example: `type: server, runtime: node, port: 4000`,
no dockerfile. -/
def c1cfg : ServerCfg := { runtime := some "node", port := some 4000 }

/-- A server config with a named Dockerfile (`EXPOSE 1111`) and `--port 2222` in
its start command. -/
def c1cfgB : ServerCfg :=
  { start := some "node server.js --port 2222", dockerfile := some "Dockerfile" }

def c1dfContent : List Char := ("FROM node:20-alpine\nEXPOSE 1111\n").data

def c1oracle : String → Option (List Char) := fun _ => some c1dfContent

/-- A build config whose `base_path_env` key is also whitelisted and set by the env file. -/
def c3cfg : BuildCfg := { base_path_env := some "X", env := ["X"], env_file := some "envf" }

/-- A server config whitelisting `PORT` itself as a pass-through name. -/
def c9cfg : ServerCfg := { runtime := some "node", env := ["PORT"] }

/-- A plain node server config with no start command and no dockerfile. -/
def c9cfgB : ServerCfg := { runtime := some "node" }

/-- A node server config whose start command carries a `--port` flag. -/
def c1cfgC : ServerCfg := { runtime := some "node", start := some "node s.js --port 5005" }

/-- An existing registry record used to exercise a redeploy. -/
def c4old : AppEntry :=
  { id := "demo", name := "Demo", type := "static", repo := "u/demo",
    link_app := "a", link_blog := "b", link_github := "c",
    created_at := 5, updated_at := 6, meta := [("k", "v")] }

/-- The result of a concrete `write_compose` call on `c1cfgC`, and its projections. -/
def c1resC := write_compose "demo" "/repo" c1cfgC (fun _ => none) [] ⟨[], []⟩

def c1outC : ComposeOut :=
  match c1resC with
  | .ok of => of.1
  | .error _ => ⟨"", "", "", [], [], []⟩

def c1fsC : FileState :=
  match c1resC with
  | .ok of => of.2
  | .error _ => ⟨[], []⟩

/-- The result of a concrete successful `write_compose` call, and its projections. -/
def c9res := write_compose "w" "/repo" c9cfgB (fun _ => none) [] ⟨[], []⟩

def c9out : ComposeOut :=
  match c9res with
  | .ok of => of.1
  | .error _ => ⟨"", "", "", [], [], []⟩

def c9fs : FileState :=
  match c9res with
  | .ok of => of.2
  | .error _ => ⟨[], []⟩

/-! ### Lemmas about the slugify pipeline -/

theorem replaceBadAux_cons_allowed (x : Char) (rest : List Char) (b : Bool)
    (hx : isAllowed x = true) :
    replaceBadAux b (x :: rest) = x :: replaceBadAux false rest := by
  cases b <;> simp [replaceBadAux, hx]

theorem replaceBadAux_true_bad (x : Char) (rest : List Char) (hx : isAllowed x = false) :
    replaceBadAux true (x :: rest) = replaceBadAux true rest := by
  simp [replaceBadAux, hx]

theorem replaceBadAux_false_bad (x : Char) (rest : List Char) (hx : isAllowed x = false) :
    replaceBadAux false (x :: rest) = '-' :: replaceBadAux true rest := by
  simp [replaceBadAux, hx]

theorem collapseDashAux_true_dash (rest : List Char) :
    collapseDashAux true ('-' :: rest) = collapseDashAux true rest := by
  simp [collapseDashAux]

theorem collapseDashAux_false_dash (rest : List Char) :
    collapseDashAux false ('-' :: rest) = '-' :: collapseDashAux true rest := by
  simp [collapseDashAux]

theorem collapseDashAux_cons_ne (x : Char) (rest : List Char) (b : Bool) (hx : x ≠ '-') :
    collapseDashAux b (x :: rest) = x :: collapseDashAux false rest := by
  cases b <;> simp [collapseDashAux, hx]

theorem mem_replaceBadAux (l : List Char) :
    ∀ b, ∀ c ∈ replaceBadAux b l, isAllowed c = true := by
  induction l with
  | nil => intro b c hc; cases b <;> simp [replaceBadAux] at hc
  | cons x rest ih =>
    intro b c hc
    by_cases hx : isAllowed x = true
    · rw [replaceBadAux_cons_allowed x rest b hx] at hc
      rcases List.mem_cons.mp hc with hc | hc
      · exact hc ▸ hx
      · exact ih false c hc
    · have hx' : isAllowed x = false := by simpa using hx
      cases b with
      | true =>
        rw [replaceBadAux_true_bad x rest hx'] at hc
        exact ih true c hc
      | false =>
        rw [replaceBadAux_false_bad x rest hx'] at hc
        rcases List.mem_cons.mp hc with hc | hc
        · subst hc; decide
        · exact ih true c hc

theorem replaceBadAux_eq_self (l : List Char) (h : ∀ c ∈ l, isAllowed c = true) (b : Bool) :
    replaceBadAux b l = l := by
  induction l generalizing b with
  | nil => cases b <;> rfl
  | cons x rest ih =>
    have hx : isAllowed x = true := h x (by simp)
    rw [replaceBadAux_cons_allowed x rest b hx, ih (fun c hc => h c (by simp [hc]))]

theorem mem_collapseDashAux (l : List Char) :
    ∀ b, ∀ c ∈ collapseDashAux b l, c ∈ l := by
  induction l with
  | nil => intro b c hc; cases b <;> simp [collapseDashAux] at hc
  | cons x rest ih =>
    intro b c hc
    by_cases hx : x = '-'
    · subst hx
      cases b with
      | true =>
        rw [collapseDashAux_true_dash] at hc
        exact List.mem_cons_of_mem _ (ih true c hc)
      | false =>
        rw [collapseDashAux_false_dash] at hc
        rcases List.mem_cons.mp hc with hc | hc
        · simp [hc]
        · exact List.mem_cons_of_mem _ (ih true c hc)
    · rw [collapseDashAux_cons_ne x rest b hx] at hc
      rcases List.mem_cons.mp hc with hc | hc
      · simp [hc]
      · exact List.mem_cons_of_mem _ (ih false c hc)

theorem head_collapseDashAux_true (l : List Char) :
    ∀ a, (collapseDashAux true l).head? = some a → a ≠ '-' := by
  induction l with
  | nil => intro a ha; simp [collapseDashAux] at ha
  | cons x rest ih =>
    intro a ha
    by_cases hx : x = '-'
    · subst hx
      rw [collapseDashAux_true_dash] at ha
      exact ih a ha
    · rw [collapseDashAux_cons_ne x rest true hx, List.head?_cons] at ha
      injection ha with ha
      rw [← ha]
      exact hx

theorem noDoubleDash_cons (x : Char) (l : List Char) :
    noDoubleDash (x :: l) = true ↔
      ((∀ y, l.head? = some y → ¬(x = '-' ∧ y = '-')) ∧ noDoubleDash l = true) := by
  cases l with
  | nil => simp [noDoubleDash]
  | cons y rest =>
    simp only [noDoubleDash, List.head?_cons, Bool.and_eq_true, Bool.not_eq_true']
    constructor
    · rintro ⟨h1, h2⟩
      refine ⟨?_, h2⟩
      rintro z hz ⟨hx, hy⟩
      cases hz
      subst hx
      subst hy
      simp at h1
    · rintro ⟨h1, h2⟩
      refine ⟨?_, h2⟩
      by_cases hx : x = '-'
      · by_cases hy : y = '-'
        · exact absurd ⟨hx, hy⟩ (h1 y rfl)
        · simp [hy]
      · simp [hx]

theorem noDoubleDash_collapseDashAux (l : List Char) (b : Bool) :
    noDoubleDash (collapseDashAux b l) = true := by
  induction l generalizing b with
  | nil => cases b <;> decide
  | cons x rest ih =>
    by_cases hx : x = '-'
    · subst hx
      cases b with
      | true => rw [collapseDashAux_true_dash]; exact ih true
      | false =>
        rw [collapseDashAux_false_dash, noDoubleDash_cons]
        refine ⟨?_, ih true⟩
        intro y hy hxy
        exact head_collapseDashAux_true rest y hy hxy.2
    · rw [collapseDashAux_cons_ne x rest b hx, noDoubleDash_cons]
      exact ⟨fun y _ hxy => hx hxy.1, ih false⟩

theorem collapseDashAux_eq_self (l : List Char) :
    (noDoubleDash l = true → collapseDashAux false l = l) ∧
      ((∀ a, l.head? = some a → a ≠ '-') → noDoubleDash l = true →
        collapseDashAux true l = l) := by
  induction l with
  | nil => exact ⟨fun _ => rfl, fun _ _ => rfl⟩
  | cons x rest ih =>
    constructor
    · intro hnd
      rw [noDoubleDash_cons] at hnd
      by_cases hx : x = '-'
      · subst hx
        rw [collapseDashAux_false_dash,
          ih.2 (fun a ha had => (hnd.1 a ha) ⟨rfl, had⟩) hnd.2]
      · rw [collapseDashAux_cons_ne x rest false hx, ih.1 hnd.2]
    · intro hhead hnd
      rw [noDoubleDash_cons] at hnd
      have hx : x ≠ '-' := hhead x rfl
      rw [collapseDashAux_cons_ne x rest true hx, ih.1 hnd.2]

theorem dropTrailIf_isPrefixOf (p : Char → Bool) (l : List Char) : dropTrailIf p l <+: l := by
  induction l with
  | nil => exact List.prefix_refl _
  | cons c rest ih =>
    simp only [dropTrailIf]
    cases hr : dropTrailIf p rest with
    | nil =>
      by_cases hc : p c = true
      · simp [hc]
      · simp only [hc, if_false]
        exact ⟨rest, rfl⟩
    | cons y ys =>
      rw [hr] at ih
      exact List.cons_prefix_cons.mpr ⟨rfl, ih⟩

theorem getLast?_dropTrailIf (p : Char → Bool) (l : List Char) :
    ∀ a, (dropTrailIf p l).getLast? = some a → p a = false := by
  induction l with
  | nil => intro a ha; simp [dropTrailIf] at ha
  | cons c rest ih =>
    intro a ha
    simp only [dropTrailIf] at ha
    cases hr : dropTrailIf p rest with
    | nil =>
      rw [hr] at ha
      by_cases hc : p c = true
      · simp [hc] at ha
      · simp only [hc, if_false, List.getLast?_singleton] at ha
        injection ha with ha
        rw [← ha]
        simpa using hc
    | cons y ys =>
      rw [hr] at ha
      rw [List.getLast?_cons_cons] at ha
      exact ih a (hr ▸ ha)

theorem dropTrailIf_eq_self (p : Char → Bool) (l : List Char)
    (h : ∀ a, l.getLast? = some a → p a = false) : dropTrailIf p l = l := by
  induction l with
  | nil => rfl
  | cons c rest ih =>
    cases rest with
    | nil =>
      have hc : p c = false := h c rfl
      simp [dropTrailIf, hc]
    | cons y ys =>
      have hrest : dropTrailIf p (y :: ys) = y :: ys := by
        apply ih
        intro a ha
        exact h a (by rw [List.getLast?_cons_cons]; exact ha)
      have hstep : dropTrailIf p (c :: y :: ys) =
          match dropTrailIf p (y :: ys) with
          | [] => if p c = true then [] else [c]
          | r => c :: r := rfl
      rw [hstep, hrest]

theorem head?_dropWhile (p : Char → Bool) (l : List Char) :
    ∀ a, (l.dropWhile p).head? = some a → p a = false := by
  induction l with
  | nil => intro a ha; simp at ha
  | cons c rest ih =>
    intro a ha
    by_cases hc : p c = true
    · rw [List.dropWhile_cons_of_pos hc] at ha
      exact ih a ha
    · rw [List.dropWhile_cons_of_neg hc, List.head?_cons] at ha
      injection ha with ha
      rw [← ha]
      simpa using hc

theorem dropWhile_eq_self (p : Char → Bool) (l : List Char)
    (h : ∀ a, l.head? = some a → p a = false) : l.dropWhile p = l := by
  cases l with
  | nil => rfl
  | cons c rest =>
    have hc : p c = false := h c rfl
    simp [List.dropWhile_cons, hc]

theorem noDoubleDash_tail (x : Char) (l : List Char) (h : noDoubleDash (x :: l) = true) :
    noDoubleDash l = true := ((noDoubleDash_cons x l).mp h).2

theorem noDoubleDash_dropWhile (p : Char → Bool) (l : List Char)
    (h : noDoubleDash l = true) : noDoubleDash (l.dropWhile p) = true := by
  induction l with
  | nil => exact h
  | cons c rest ih =>
    by_cases hc : p c = true
    · rw [List.dropWhile_cons_of_pos hc]
      exact ih (noDoubleDash_tail c rest h)
    · rwa [List.dropWhile_cons_of_neg hc]

theorem noDoubleDash_append_left (l t : List Char)
    (h : noDoubleDash (l ++ t) = true) : noDoubleDash l = true := by
  induction l with
  | nil => rfl
  | cons c rest ih =>
    cases rest with
    | nil => rfl
    | cons y ys =>
      rw [List.cons_append] at h
      rw [noDoubleDash_cons] at h ⊢
      refine ⟨fun z hz => h.1 z ?_, ih (by rw [List.cons_append] at h; exact h.2)⟩
      rw [List.cons_append, List.head?_cons]
      rw [List.head?_cons] at hz
      exact hz

theorem noDoubleDash_of_prefix (l m : List Char) (hp : l <+: m)
    (h : noDoubleDash m = true) : noDoubleDash l = true := by
  obtain ⟨t, rfl⟩ := hp
  exact noDoubleDash_append_left l t h

theorem head?_pyStrip (p : Char → Bool) (l : List Char) :
    ∀ a, (pyStrip p l).head? = some a → p a = false := by
  intro a ha
  obtain ⟨t, ht⟩ := dropTrailIf_isPrefixOf p (l.dropWhile p)
  apply head?_dropWhile p l a
  rw [← ht]
  rw [pyStrip] at ha
  cases hd : dropTrailIf p (l.dropWhile p) with
  | nil => rw [hd] at ha; simp at ha
  | cons y ys => rw [hd] at ha; simpa using ha

theorem getLast?_pyStrip (p : Char → Bool) (l : List Char) :
    ∀ a, (pyStrip p l).getLast? = some a → p a = false :=
  getLast?_dropTrailIf p (l.dropWhile p)

theorem mem_dropWhile (p : Char → Bool) (l : List Char) (c : Char)
    (hc : c ∈ l.dropWhile p) : c ∈ l :=
  (List.dropWhile_sublist p).mem hc

theorem mem_pyStrip (p : Char → Bool) (l : List Char) (c : Char) (hc : c ∈ pyStrip p l) :
    c ∈ l :=
  mem_dropWhile p l c ((dropTrailIf_isPrefixOf p (l.dropWhile p)).subset hc)

theorem noDoubleDash_pyStrip (p : Char → Bool) (l : List Char)
    (h : noDoubleDash l = true) : noDoubleDash (pyStrip p l) = true :=
  noDoubleDash_of_prefix _ _ (dropTrailIf_isPrefixOf p (l.dropWhile p))
    (noDoubleDash_dropWhile p l h)

theorem pyStrip_eq_self (p : Char → Bool) (l : List Char)
    (h1 : ∀ a, l.head? = some a → p a = false)
    (h2 : ∀ a, l.getLast? = some a → p a = false) : pyStrip p l = l := by
  rw [pyStrip, dropWhile_eq_self p l h1, dropTrailIf_eq_self p l h2]

/-! ### The Good-slug characterisation -/

theorem toLower_of_allowed (c : Char) (h : isAllowed c = true) : c.toLower = c := by
  have h' : ¬(c.toNat ≥ 65 ∧ c.toNat ≤ 90) := by
    simp only [isAllowed, Bool.or_eq_true, Bool.and_eq_true, decide_eq_true_eq] at h
    omega
  simp [Char.toLower, h']

theorem not_space_of_allowed (c : Char) (h : isAllowed c = true) : pyIsSpace c = false := by
  simp only [isAllowed, Bool.or_eq_true, Bool.and_eq_true, decide_eq_true_eq] at h
  simp only [pyIsSpace, Bool.or_eq_false_iff, decide_eq_false_iff_not]
  omega

theorem goodSlug_normalizeSlug (s : List Char) : GoodSlug (normalizeSlug s) := by
  unfold normalizeSlug
  refine ⟨?_, ?_, ?_, ?_⟩
  · intro c hc
    have h1 := mem_pyStrip _ _ c hc
    have h2 := mem_collapseDashAux _ false c h1
    exact mem_replaceBadAux _ false c h2
  · exact noDoubleDash_pyStrip _ _ (noDoubleDash_collapseDashAux _ false)
  · intro a ha
    have := head?_pyStrip _ _ a ha
    simpa using this
  · intro a ha
    have := getLast?_pyStrip _ _ a ha
    simpa using this

theorem normalizeSlug_eq_self (l : List Char) (h : GoodSlug l) : normalizeSlug l = l := by
  obtain ⟨hall, hnd, hhead, hlast⟩ := h
  have hstrip : pyStrip pyIsSpace l = l := by
    apply pyStrip_eq_self
    · intro a ha
      exact not_space_of_allowed a (hall a (List.mem_of_mem_head? (by rw [ha]; rfl)))
    · intro a ha
      exact not_space_of_allowed a (hall a (List.mem_of_getLast?_eq_some ha))
  have hlower : pyLowerL l = l := by
    rw [pyLowerL, List.map_congr_left (fun c hc => toLower_of_allowed c (hall c hc))]
    simp
  have hbad : replaceBad l = l := replaceBadAux_eq_self l hall false
  have hcol : collapseDash l = l := (collapseDashAux_eq_self l).1 hnd
  have hdash : pyStrip (fun c => c = '-') l = l := by
    apply pyStrip_eq_self
    · intro a ha
      simpa using hhead a ha
    · intro a ha
      simpa using hlast a ha
  rw [normalizeSlug, hstrip, hlower, hbad, hcol, hdash]

theorem goodSlug_app : GoodSlug ['a', 'p', 'p'] := by
  refine ⟨by decide, by decide, ?_, ?_⟩
  · intro a ha
    injection ha with ha
    rw [← ha]
    decide
  · intro a ha
    simp only [List.getLast?_cons_cons, List.getLast?_singleton] at ha
    injection ha with ha
    rw [← ha]
    decide

theorem goodSlug_slugify (s : List Char) : GoodSlug (slugify s) ∧ slugify s ≠ [] := by
  rw [slugify]
  by_cases h : normalizeSlug s = []
  · simp only [h, if_pos rfl]
    exact ⟨goodSlug_app, by decide⟩
  · simp only [if_neg h]
    exact ⟨goodSlug_normalizeSlug s, h⟩

theorem slugify_eq_self (l : List Char) (h : GoodSlug l) (hne : l ≠ []) :
    slugify l = l := by
  rw [slugify, normalizeSlug_eq_self l h, if_neg hne]

theorem slugify_idem (s : List Char) : slugify (slugify s) = slugify s :=
  slugify_eq_self (slugify s) (goodSlug_slugify s).1 (goodSlug_slugify s).2

theorem slugifyS_ne_empty (s : String) : slugifyS s ≠ "" := by
  intro h
  have hd : (slugifyS s).data = [] := by rw [h]
  exact (goodSlug_slugify s.data).2 hd

theorem slugifyS_idem (s : String) : slugifyS (slugifyS s) = slugifyS s := by
  unfold slugifyS
  rw [show (String.mk (slugify s.data)).data = slugify s.data from rfl]
  rw [slugify_idem]

theorem string_append_ne_of_ne (s a b : String) (h : a ≠ b) : s ++ a ≠ s ++ b := by
  intro he
  apply h
  apply String.ext
  have hd : (s ++ a).data = (s ++ b).data := by rw [he]
  rw [String.data_append, String.data_append] at hd
  exact List.append_cancel_left hd

/-! ### Character lowering -/

theorem char_toNat_ofNat_small (n : Nat) (h : n < 55296) : (Char.ofNat n).toNat = n := by
  rw [Char.ofNat, dif_pos (Or.inl h)]
  rfl

theorem toLower_idem (c : Char) : c.toLower.toLower = c.toLower := by
  simp only [Char.toLower]
  by_cases h : c.toNat ≥ 65 ∧ c.toNat ≤ 90
  · rw [if_pos h]
    have h32 : (Char.ofNat (c.toNat + 32)).toNat = c.toNat + 32 :=
      char_toNat_ofNat_small _ (by omega)
    rw [if_neg (by rw [h32]; omega)]
  · rw [if_neg h, if_neg h]

theorem pyLower_idem (s : String) : pyLower (pyLower s) = pyLower s := by
  apply String.ext
  show (pyLowerL s.data).map Char.toLower = pyLowerL s.data
  rw [pyLowerL, List.map_map]
  exact List.map_congr_left fun c _ => toLower_idem c

theorem default_port_pyLower (r : String) :
    default_port_for_runtime (pyLower r) = default_port_for_runtime r := by
  rw [default_port_for_runtime, default_port_for_runtime, pyLower_idem]

/-! ### Association-map lemmas -/

theorem lookup_setAssoc_self {β : Type} (m : List (String × β)) (k : String) (v : β) :
    (setAssoc m k v).lookup k = some v := by
  induction m with
  | nil => simp [setAssoc, List.lookup]
  | cons kv rest ih =>
    obtain ⟨a, b⟩ := kv
    by_cases h : a = k
    · subst h
      simp [setAssoc, List.lookup]
    · have hbeq : (k == a) = false := beq_eq_false_iff_ne.mpr fun he => h he.symm
      simp [setAssoc, h, List.lookup, hbeq, ih]

theorem lookup_setAssoc_ne {β : Type} (m : List (String × β)) (k : String) (v : β)
    (q : String) (h : q ≠ k) : (setAssoc m k v).lookup q = m.lookup q := by
  induction m with
  | nil =>
    have hbeq : (q == k) = false := beq_eq_false_iff_ne.mpr h
    simp [setAssoc, List.lookup, hbeq]
  | cons kv rest ih =>
    obtain ⟨a, b⟩ := kv
    by_cases ha : a = k
    · subst ha
      have hbeq : (q == a) = false := beq_eq_false_iff_ne.mpr h
      simp [setAssoc, List.lookup, hbeq]
    · simp only [setAssoc, if_neg ha]
      by_cases hq : q = a
      · subst hq
        simp [List.lookup]
      · have hbeq : (q == a) = false := beq_eq_false_iff_ne.mpr hq
        simp [List.lookup, hbeq, ih]

theorem isSome_lookup_setAssoc {β : Type} (m : List (String × β)) (k : String) (v : β)
    (q : String) (h : (m.lookup q).isSome = true) :
    ((setAssoc m k v).lookup q).isSome = true := by
  by_cases hq : q = k
  · subst hq
    rw [lookup_setAssoc_self]
    rfl
  · rw [lookup_setAssoc_ne m k v q hq]
    exact h

theorem lookup_applyEnvFile (lines : List String) (e : EnvMap) (k : String) :
    (applyEnvFile lines e).lookup k =
      match envFileLast lines k with
      | some v => some v
      | none => e.lookup k := by
  induction lines generalizing e with
  | nil => rfl
  | cons line rest ih =>
    have hstep : applyEnvFile (line :: rest) e =
        applyEnvFile rest
          (match parseEnvLine line with
           | some kv => setAssoc e kv.1 kv.2
           | none => e) := by
      rw [applyEnvFile, List.foldl_cons]
      rfl
    rw [hstep, ih]
    cases hel : envFileLast rest k with
    | some v => simp [envFileLast, hel]
    | none =>
      cases hpl : parseEnvLine line with
      | none => simp [envFileLast, hel, hpl]
      | some kv =>
        by_cases hk : kv.1 = k
        · subst hk
          simp [envFileLast, hel, hpl, lookup_setAssoc_self]
        · simp [envFileLast, hel, hpl, hk, lookup_setAssoc_ne e kv.1 kv.2 k fun he => hk he.symm]

theorem lookup_applyWhitelist (ambient : EnvMap) (names : List String) (e : EnvMap)
    (k : String) :
    (applyWhitelist ambient names e).lookup k =
      if k ∈ names ∧ (ambient.lookup k).isSome = true then ambient.lookup k
      else e.lookup k := by
  induction names generalizing e with
  | nil => simp [applyWhitelist]
  | cons n rest ih =>
    have hstep : applyWhitelist ambient (n :: rest) e =
        applyWhitelist ambient rest
          (match ambient.lookup n with
           | some v => setAssoc e n v
           | none => e) := by
      rw [applyWhitelist, List.foldl_cons]
      rfl
    rw [hstep, ih]
    by_cases hrest : k ∈ rest ∧ (ambient.lookup k).isSome = true
    · rw [if_pos hrest, if_pos ⟨List.mem_cons_of_mem n hrest.1, hrest.2⟩]
    · rw [if_neg hrest]
      by_cases hn : n = k
      · subst hn
        cases han : ambient.lookup n with
        | none =>
          rw [if_neg]
          rintro ⟨_, hs⟩
          simp at hs
        | some w =>
          rw [lookup_setAssoc_self]
          rw [if_pos ⟨List.mem_cons_self n rest, rfl⟩]
      · have hcond : ¬(k ∈ n :: rest ∧ (ambient.lookup k).isSome = true) := by
          rintro ⟨hm, hs⟩
          rcases List.mem_cons.mp hm with he | hm2
          · exact hn he.symm
          · exact hrest ⟨hm2, hs⟩
        cases han : ambient.lookup n with
        | none => rw [if_neg hcond]
        | some w =>
          rw [lookup_setAssoc_ne e n w k fun he => hn he.symm, if_neg hcond]

theorem lookup_envFileLayer (cfg : BuildCfg) (content : Option (List String))
    (e : EnvMap) (k : String) :
    (envFileLayer cfg content e).lookup k =
      match envFileEffLast cfg content k with
      | some v => some v
      | none => e.lookup k := by
  rw [envFileLayer.eq_def, envFileEffLast.eq_def]
  by_cases hef : pyTruthy cfg.env_file = true
  · rw [if_pos hef, if_pos hef]
    cases content with
    | some lines => exact lookup_applyEnvFile lines e k
    | none => rfl
  · rw [if_neg hef, if_neg hef]

/-! ### Claim theorems -/

/-- Claim C2: for every input string, `slugify` returns a non-empty string over
`[a-z0-9-]` with no leading, trailing or doubled hyphens, returns the literal
string `"app"` when the normalised result is empty, never throws (it is a total
function of the embedding), and is idempotent. -/
theorem slugify_spec (s : String) :
    slugifyS s ≠ "" ∧
      (∀ c ∈ (slugifyS s).data, isAllowed c = true) ∧
      noDoubleDash (slugifyS s).data = true ∧
      (∀ a, (slugifyS s).data.head? = some a → a ≠ '-') ∧
      (∀ a, (slugifyS s).data.getLast? = some a → a ≠ '-') ∧
      (normalizeSlug s.data = [] → slugifyS s = "app") ∧
      slugifyS (slugifyS s) = slugifyS s := by
  have hg := goodSlug_slugify s.data
  have hd : (slugifyS s).data = slugify s.data := rfl
  refine ⟨slugifyS_ne_empty s, ?_, ?_, ?_, ?_, ?_, slugifyS_idem s⟩
  · rw [hd]; exact hg.1.1
  · rw [hd]; exact hg.1.2.1
  · rw [hd]; exact hg.1.2.2.1
  · rw [hd]; exact hg.1.2.2.2
  · intro h
    have happ : slugify s.data = ['a', 'p', 'p'] := by
      rw [slugify]
      simp [h]
    rw [slugifyS, happ]

/-- Claim C2 witness: the `"app"` fallback fires on the empty string, obtained by
applying the theorem at a concrete input. -/
theorem slugify_spec_witness : slugifyS "" = "app" :=
  (slugify_spec "").2.2.2.2.2.1 (by decide)

/-- Claim C3 counterexample: with `base_path_env = "X"`, `env = ["X"]`,
`env_file` present and assigning `X`, and an ambient `X`, the composed build
environment maps `X` to the env-file value, not to the claimed `base_path_env`
value `/app/demo/` — so the `base_path_env` injection does not win. -/
theorem env_precedence_counterexample :
    (staticBuildEnv [("X", "amb")] "demo" c3cfg (some ["X=filev"])).lookup "X" =
        some "filev" ∧
      (staticBuildEnv [("X", "amb")] "demo" c3cfg (some ["X=filev"])).lookup "X" ≠
        some "/app/demo/" :=
  ⟨by decide, by decide⟩

/-- Claim C3 (amended): the static build environment is layered in the source's
order ambient → `base_path_env` injection → whitelisted ambient names → env-file
entries, with later layers winning: an env-file assignment beats the whitelist
and `base_path_env`; a whitelisted ambient value beats `base_path_env`; the
`base_path_env` value survives only when no later layer sets its key. -/
theorem staticBuildEnv_precedence (ambient : EnvMap) (appId : String) (cfg : BuildCfg)
    (content : Option (List String)) (k : String) :
    (∀ v, envFileEffLast cfg content k = some v →
        (staticBuildEnv ambient appId cfg content).lookup k = some v) ∧
      (envFileEffLast cfg content k = none → k ∈ cfg.env →
        ∀ w, ambient.lookup k = some w →
          (staticBuildEnv ambient appId cfg content).lookup k = some w) ∧
      (envFileEffLast cfg content k = none →
        (¬k ∈ cfg.env ∨ ambient.lookup k = none) →
        cfg.base_path_env = some k → k ≠ "" →
          (staticBuildEnv ambient appId cfg content).lookup k =
            some ("/app/" ++ appId ++ "/")) := by
  refine ⟨?_, ?_, ?_⟩
  · intro v hv
    rw [staticBuildEnv, lookup_envFileLayer, hv]
  · intro hnone hmem w hw
    rw [staticBuildEnv, lookup_envFileLayer, hnone, lookup_applyWhitelist]
    rw [if_pos ⟨hmem, by rw [hw]; rfl⟩, hw]
  · intro hnone hnw hbp hk
    rw [staticBuildEnv, lookup_envFileLayer, hnone, lookup_applyWhitelist]
    rw [if_neg ?hc]
    case hc =>
      rintro ⟨hm, hs⟩
      rcases hnw with hcase | hcase
      · exact hcase hm
      · rw [hcase] at hs
        simp at hs
    rw [basePathLayer, if_pos ?hb]
    case hb =>
      rw [hbp]
      simp only [pyTruthy]
      simpa using hk
    rw [show cfg.base_path_env.getD "" = k from by rw [hbp]; rfl]
    exact lookup_setAssoc_self ambient k _

/-- Claim C3 witness for the amended theorem: a concrete env-file assignment wins. -/
theorem staticBuildEnv_precedence_witness :
    (staticBuildEnv [("X", "amb")] "demo2" c3cfg (some ["X=other"])).lookup "X" =
      some "other" :=
  (staticBuildEnv_precedence [("X", "amb")] "demo2" c3cfg (some ["X=other"]) "X").1
    "other" (by decide)

/-- Claim C4: redeploying an existing application id updates the registry record
in place: `created_at` keeps the stored value, `updated_at` is set to the current
time (hence timestamps are non-decreasing whenever the clock is), and every other
field of the record is overwritten from the new deploy's inputs. -/
theorem registryUpsert_redeploy (reg : List (String × AppEntry)) (appId : String)
    (nameOpt : Option String) (typ repoUrl : String)
    (metaOpt : Option (List (String × String))) (now : Nat) (old : AppEntry)
    (h : reg.lookup appId = some old) :
    (registryUpsert reg appId nameOpt typ repoUrl metaOpt now).lookup appId =
        some { id := appId, name := pyOrS nameOpt appId, type := typ, repo := repoUrl,
               link_app := "https://" ++ VIBES_HOST ++ "/app/" ++ appId ++ "/",
               link_blog := "https://" ++ VIBES_HOST ++ "/blog/" ++ appId,
               link_github :=
                 if pyStartswith repoUrl "http" then repoUrl
                 else "https://github.com/" ++ repoUrl,
               created_at := old.created_at, updated_at := now,
               meta := metaOpt.getD [] } ∧
      (∀ e, (registryUpsert reg appId nameOpt typ repoUrl metaOpt now).lookup appId =
          some e →
        e.created_at = old.created_at ∧ e.updated_at = now ∧
          (old.updated_at ≤ now → old.updated_at ≤ e.updated_at)) := by
  have hu : (registryUpsert reg appId nameOpt typ repoUrl metaOpt now).lookup appId =
      some { id := appId, name := pyOrS nameOpt appId, type := typ, repo := repoUrl,
             link_app := "https://" ++ VIBES_HOST ++ "/app/" ++ appId ++ "/",
             link_blog := "https://" ++ VIBES_HOST ++ "/blog/" ++ appId,
             link_github :=
               if pyStartswith repoUrl "http" then repoUrl
               else "https://github.com/" ++ repoUrl,
             created_at := old.created_at, updated_at := now,
             meta := metaOpt.getD [] } := by
    simp only [registryUpsert, h]
    exact lookup_setAssoc_self reg appId _
  refine ⟨hu, ?_⟩
  intro e he
  rw [hu] at he
  injection he with he
  refine ⟨?_, ?_, ?_⟩
  · rw [← he]
  · rw [← he]
  · intro hle
    rw [← he]
    exact hle

/-- Claim C4 witness: a concrete redeploy of id `demo` at time 9 over a record
created at time 5. -/
theorem registryUpsert_redeploy_witness :
    (registryUpsert [("demo", c4old)] "demo" none "static" "u/demo" none 9).lookup "demo" =
        some { id := "demo", name := pyOrS none "demo", type := "static", repo := "u/demo",
               link_app := "https://" ++ VIBES_HOST ++ "/app/" ++ "demo" ++ "/",
               link_blog := "https://" ++ VIBES_HOST ++ "/blog/" ++ "demo",
               link_github :=
                 if pyStartswith "u/demo" "http" then "u/demo"
                 else "https://github.com/" ++ "u/demo",
               created_at := c4old.created_at, updated_at := 9,
               meta := (none : Option (List (String × String))).getD [] } ∧
      (∀ e, (registryUpsert [("demo", c4old)] "demo" none "static" "u/demo" none 9).lookup
          "demo" = some e →
        e.created_at = c4old.created_at ∧ e.updated_at = 9 ∧
          (c4old.updated_at ≤ 9 → c4old.updated_at ≤ e.updated_at)) :=
  registryUpsert_redeploy [("demo", c4old)] "demo" none "static" "u/demo" none 9 c4old
    (by decide)

/-- Claim C5: a non-zero exit of a configured install or build command — run
directly, or as the single docker-run command combining them — aborts the static
deploy with a command failure before publish and before the registry update: the
error carries the state exactly as it was at invocation. -/
theorem deployStatic_buildFail_aborts (appId repoDir : String) (cfg : BuildCfg)
    (nameOpt : Option String) (typ repoUrl : String)
    (metaOpt : Option (List (String × String))) (ox : ExecOracle) (now : Nat)
    (st : StaticState)
    (h : (cfg.use_docker = false ∧
            ((pyTruthy cfg.install = true ∧ ox.installExit ≠ 0) ∨
              (pyTruthy cfg.command = true ∧ ox.buildExit ≠ 0))) ∨
          (cfg.use_docker = true ∧
            (pyTruthy cfg.install = true ∨ pyTruthy cfg.command = true) ∧
            ox.dockerExit ≠ 0)) :
    deployStatic appId repoDir cfg nameOpt typ repoUrl metaOpt ox now st =
      .error (.cmdFailed, st) := by
  rw [deployStatic]
  rcases h with ⟨hud, hf⟩ | ⟨hud, hc, hd⟩
  · rw [if_neg (by rw [hud]; simp)]
    rcases hf with ⟨hi, he⟩ | ⟨hb, he⟩
    · rw [if_pos (by rw [hi]; simpa using he)]
    · by_cases hfirst : (pyTruthy cfg.install && (ox.installExit != 0)) = true
      · rw [if_pos hfirst]
      · rw [if_neg hfirst, if_pos (by rw [hb]; simpa using he)]
  · rw [if_pos hud]
    have h1 : (pyTruthy cfg.install || pyTruthy cfg.command) = true := by
      rcases hc with hc | hc <;> simp [hc]
    rw [if_pos (by rw [h1]; simpa using hd)]

/-- Claim C5 witness: a concrete failing install command leaves a concrete state
untouched. -/
theorem deployStatic_buildFail_aborts_witness :
    deployStatic "demo" "/repo" { install := some "npm ci", command := some "npm run build" }
        none "static" "u/demo" none ⟨1, 0, 0, fun _ => true, fun _ => 0⟩ 11
        ⟨[("other", 7)], []⟩ =
      .error (.cmdFailed, ⟨[("other", 7)], []⟩) :=
  deployStatic_buildFail_aborts "demo" "/repo"
    { install := some "npm ci", command := some "npm run build" } none "static" "u/demo"
    none ⟨1, 0, 0, fun _ => true, fun _ => 0⟩ 11 ⟨[("other", 7)], []⟩
    (Or.inl ⟨rfl, Or.inl ⟨by decide, by decide⟩⟩)

/-- Claim C6: the build output directory of a static deploy is the configured
`output_dir` resolved under the checkout root when given; otherwise the first of
`dist`, `build`, `public` that exists, probed in that order; otherwise the
checkout root itself.  If the resolved directory does not exist after a
successful build step, the deploy fails with the output-missing error and
nothing is published (the error carries the unchanged state). -/
theorem outputDir_resolution (appId repoDir : String) (cfg : BuildCfg)
    (nameOpt : Option String) (typ repoUrl : String)
    (metaOpt : Option (List (String × String))) (ox : ExecOracle) (now : Nat)
    (st : StaticState) :
    (∀ o, cfg.output_dir = some o → o ≠ "" →
        resolveOutputDir cfg ox.pathExists repoDir = repoDir ++ "/" ++ o) ∧
      (pyTruthy cfg.output_dir = false →
        (ox.pathExists (repoDir ++ "/dist") = true →
            resolveOutputDir cfg ox.pathExists repoDir = repoDir ++ "/dist") ∧
          (ox.pathExists (repoDir ++ "/dist") = false →
            ox.pathExists (repoDir ++ "/build") = true →
              resolveOutputDir cfg ox.pathExists repoDir = repoDir ++ "/build") ∧
          (ox.pathExists (repoDir ++ "/dist") = false →
            ox.pathExists (repoDir ++ "/build") = false →
            ox.pathExists (repoDir ++ "/public") = true →
              resolveOutputDir cfg ox.pathExists repoDir = repoDir ++ "/public") ∧
          (ox.pathExists (repoDir ++ "/dist") = false →
            ox.pathExists (repoDir ++ "/build") = false →
            ox.pathExists (repoDir ++ "/public") = false →
              resolveOutputDir cfg ox.pathExists repoDir = repoDir)) ∧
      (ox.installExit = 0 → ox.buildExit = 0 → ox.dockerExit = 0 →
        ox.pathExists (resolveOutputDir cfg ox.pathExists repoDir) = false →
          deployStatic appId repoDir cfg nameOpt typ repoUrl metaOpt ox now st =
            .error (.outputMissing, st)) := by
  refine ⟨?_, ?_, ?_⟩
  · intro o ho hne
    rw [resolveOutputDir, ho]
    rw [if_pos (by simp only [pyTruthy]; simpa using hne)]
    simp
  · intro hfalse
    refine ⟨?_, ?_, ?_, ?_⟩
    · intro hd1
      rw [resolveOutputDir, if_neg (by rw [hfalse]; simp), guess_output_dir, if_pos hd1]
    · intro hd1 hd2
      rw [resolveOutputDir, if_neg (by rw [hfalse]; simp), guess_output_dir,
        if_neg (by rw [hd1]; simp), if_pos hd2]
    · intro hd1 hd2 hd3
      rw [resolveOutputDir, if_neg (by rw [hfalse]; simp), guess_output_dir,
        if_neg (by rw [hd1]; simp), if_neg (by rw [hd2]; simp), if_pos hd3]
    · intro hd1 hd2 hd3
      rw [resolveOutputDir, if_neg (by rw [hfalse]; simp), guess_output_dir,
        if_neg (by rw [hd1]; simp), if_neg (by rw [hd2]; simp),
        if_neg (by rw [hd3]; simp)]
  · intro hi hb hdk hmiss
    rw [deployStatic]
    by_cases hud : cfg.use_docker = true
    · rw [if_pos hud, if_neg (by rw [hdk]; simp)]
      simp only [deployStaticRest]
      rw [if_neg (by rw [hmiss]; simp)]
    · rw [if_neg hud, if_neg (by rw [hi]; simp), if_neg (by rw [hb]; simp)]
      simp only [deployStaticRest]
      rw [if_neg (by rw [hmiss]; simp)]

/-- Claim C6 witness: with no configured output dir and nothing on disk, the
resolved directory is the checkout root; with even that missing, the deploy
aborts with the output-missing error and the state unchanged. -/
theorem outputDir_resolution_witness :
    deployStatic "demo" "/repo" {} none "static" "u/demo" none
        ⟨0, 0, 0, fun _ => false, fun _ => 0⟩ 3 ⟨[], []⟩ =
      .error (.outputMissing, ⟨[], []⟩) :=
  (outputDir_resolution "demo" "/repo" {} none "static" "u/demo" none
      ⟨0, 0, 0, fun _ => false, fun _ => 0⟩ 3 ⟨[], []⟩).2.2 rfl rfl rfl rfl

/-- Claim C7: undeploying an id that was never deployed (no compose file, no
static directory, no blog stub, no work directory, no registry entry), with
confirmation given (`--yes` or an interactive yes), completes successfully:
every step reports a no-op and the state — in particular the registry document —
is returned unchanged. -/
theorem undeploy_never_deployed (appIdRaw : String) (purge yes confirm : Bool)
    (st : UndeployState)
    (h1 : st.composeFileExists = false) (h2 : st.staticDirExists = false)
    (h3 : st.blogExists = false) (h4 : st.workDirExists = false)
    (h5 : st.registry.lookup (slugifyS appIdRaw) = none)
    (h6 : yes = true ∨ confirm = true) :
    undeploy appIdRaw purge yes confirm st =
      .ok ({ stackDowned := false, staticRemoved := false, blogRemoved := false,
             registryRemoved := false,
             workRemoved := if purge then some false else none }, st) := by
  obtain ⟨cf, sd, bl, wd, reg⟩ := st
  dsimp only at h1 h2 h3 h4 h5
  subst h1; subst h2; subst h3; subst h4
  rw [undeploy]
  rw [if_neg ?hc]
  case hc => rcases h6 with h | h <;> rw [h] <;> simp
  simp [h5]

/-- Claim C7 witness: a concrete never-deployed id with `--yes`. -/
theorem undeploy_never_deployed_witness :
    undeploy "ghost" false true false ⟨false, false, false, false, []⟩ =
      .ok ({ stackDowned := false, staticRemoved := false, blogRemoved := false,
             registryRemoved := false, workRemoved := if false then some false else none },
        ⟨false, false, false, false, []⟩) :=
  undeploy_never_deployed "ghost" false true false ⟨false, false, false, false, []⟩
    rfl rfl rfl rfl rfl (Or.inl rfl)

theorem generate_dockerfile_unknown (appId : String) (cfg : ServerCfg) (fs : FileState)
    (h2 : pyLower (cfg.runtime.getD "") ≠ "node")
    (h3 : pyLower (cfg.runtime.getD "") ≠ "python") :
    generate_dockerfile appId cfg fs =
      .error (.unknownRuntime,
        { files := fs.files,
          dirs := (APPS_ROOT ++ "/" ++ slugifyS appId ++ "/.deploy") :: fs.dirs }) := by
  simp only [generate_dockerfile]
  rw [if_neg h2, if_neg h3]

/-- Claim C8: a server manifest naming no Dockerfile and a runtime outside the
supported set (after lowercasing, neither `node` nor `python`) makes
`write_compose` fail with the unknown-runtime error before any file is written:
the file list of the resulting state is exactly the input's (only the `.deploy`
scratch directories were created, which happens before the runtime check in the
source). -/
theorem write_compose_unknown_runtime (appId repoDir : String) (cfg : ServerCfg)
    (fileLines : String → Option (List Char)) (ambient : EnvMap) (fs : FileState)
    (h1 : pyTruthy cfg.dockerfile = false)
    (h2 : pyLower (cfg.runtime.getD "") ≠ "node")
    (h3 : pyLower (cfg.runtime.getD "") ≠ "python") :
    write_compose appId repoDir cfg fileLines ambient fs =
      .error (.unknownRuntime,
        { files := fs.files,
          dirs := (APPS_ROOT ++ "/" ++ slugifyS (slugifyS appId) ++ "/.deploy") ::
            (APPS_ROOT ++ "/" ++ slugifyS appId ++ "/.deploy") :: fs.dirs }) := by
  have hg := generate_dockerfile_unknown (slugifyS appId) cfg
    { files := fs.files, dirs := (APPS_ROOT ++ "/" ++ slugifyS appId ++ "/.deploy") :: fs.dirs }
    h2 h3
  simp only [write_compose]
  rw [if_neg (by rw [h1]; simp)]
  rw [hg]

/-- Claim C8 witness: runtime `ruby` with no dockerfile fails before writing any file. -/
theorem write_compose_unknown_runtime_witness :
    write_compose "demo" "/repo" { runtime := some "ruby" } (fun _ => none) [] ⟨[], []⟩ =
      .error (.unknownRuntime,
        { files := [],
          dirs := (APPS_ROOT ++ "/" ++ slugifyS (slugifyS "demo") ++ "/.deploy") ::
            (APPS_ROOT ++ "/" ++ slugifyS "demo" ++ "/.deploy") :: [] }) :=
  write_compose_unknown_runtime "demo" "/repo" { runtime := some "ruby" } (fun _ => none)
    [] ⟨[], []⟩ rfl (by decide) (by decide)

/-- Claim C10: the manifest id override is applied only after the checkout step:
when the manifest declares an id whose slug differs from the pre-override id, the
work directory and clone stay keyed under the pre-override id, while the static
destination, the `.deploy` scratch directory and the registry key use the
manifest-declared id (and so differ from the checkout's key). -/
theorem id_override_after_checkout (repo : String) (appIdOpt : Option String)
    (cid : String) (h : slugifyS cid ≠ preOverrideId repo appIdOpt) :
    (deployPaths repo appIdOpt (some cid)).workDir =
        APPS_ROOT ++ "/" ++ preOverrideId repo appIdOpt ∧
      (deployPaths repo appIdOpt (some cid)).repoDir =
        APPS_ROOT ++ "/" ++ preOverrideId repo appIdOpt ++ "/repo" ∧
      (deployPaths repo appIdOpt (some cid)).staticDest =
        STATIC_ROOT ++ "/" ++ slugifyS cid ∧
      (deployPaths repo appIdOpt (some cid)).deployDir =
        APPS_ROOT ++ "/" ++ slugifyS cid ++ "/.deploy" ∧
      (deployPaths repo appIdOpt (some cid)).registryKey = slugifyS cid ∧
      (deployPaths repo appIdOpt (some cid)).workDir ≠
        APPS_ROOT ++ "/" ++ slugifyS cid := by
  have hfin : finalAppId repo appIdOpt (some cid) = slugifyS cid := by
    simp only [finalAppId, pyOrStr]
    rw [if_neg (slugifyS_ne_empty cid)]
  refine ⟨rfl, rfl, ?_, ?_, ?_, ?_⟩
  · show STATIC_ROOT ++ "/" ++ finalAppId repo appIdOpt (some cid) =
      STATIC_ROOT ++ "/" ++ slugifyS cid
    rw [hfin]
  · show APPS_ROOT ++ "/" ++ slugifyS (finalAppId repo appIdOpt (some cid)) ++ "/.deploy" =
      APPS_ROOT ++ "/" ++ slugifyS cid ++ "/.deploy"
    rw [hfin, slugifyS_idem]
  · show finalAppId repo appIdOpt (some cid) = slugifyS cid
    exact hfin
  · show APPS_ROOT ++ "/" ++ preOverrideId repo appIdOpt ≠
      APPS_ROOT ++ "/" ++ slugifyS cid
    exact string_append_ne_of_ne _ _ _ fun he => h he.symm

/-- Claim C10 witness: repo `.../site.git` with manifest id `My App` — checkout
under `site`, artifacts and registry under `my-app`. -/
theorem id_override_after_checkout_witness :
    (deployPaths "https://github.com/u/site.git" none (some "My App")).workDir =
        APPS_ROOT ++ "/" ++ preOverrideId "https://github.com/u/site.git" none ∧
      (deployPaths "https://github.com/u/site.git" none (some "My App")).repoDir =
        APPS_ROOT ++ "/" ++ preOverrideId "https://github.com/u/site.git" none ++ "/repo" ∧
      (deployPaths "https://github.com/u/site.git" none (some "My App")).staticDest =
        STATIC_ROOT ++ "/" ++ slugifyS "My App" ∧
      (deployPaths "https://github.com/u/site.git" none (some "My App")).deployDir =
        APPS_ROOT ++ "/" ++ slugifyS "My App" ++ "/.deploy" ∧
      (deployPaths "https://github.com/u/site.git" none (some "My App")).registryKey =
        slugifyS "My App" ∧
      (deployPaths "https://github.com/u/site.git" none (some "My App")).workDir ≠
        APPS_ROOT ++ "/" ++ slugifyS "My App" :=
  id_override_after_checkout "https://github.com/u/site.git" none "My App" (by decide)

theorem lookup_port_env (ambient : EnvMap) (names : List String) (n : Nat) :
    (∃ v, (applyWhitelist ambient names [("PORT", toString n)]).lookup "PORT" = some v) ∧
      (("PORT" ∈ names → ambient.lookup "PORT" = none) →
        (applyWhitelist ambient names [("PORT", toString n)]).lookup "PORT" =
          some (toString n)) := by
  constructor
  · rw [lookup_applyWhitelist]
    by_cases hc : "PORT" ∈ names ∧ (ambient.lookup "PORT").isSome = true
    · rw [if_pos hc]
      obtain ⟨w, hw⟩ := Option.isSome_iff_exists.mp hc.2
      exact ⟨w, hw⟩
    · rw [if_neg hc]
      exact ⟨toString n, by simp [List.lookup]⟩
  · intro himp
    rw [lookup_applyWhitelist]
    rw [if_neg ?hno]
    case hno =>
      rintro ⟨hm, hs⟩
      rw [himp hm] at hs
      simp at hs
    simp [List.lookup]

theorem generate_dockerfile_ok_port (appId : String) (cfg : ServerCfg) (fs : FileState)
    (res : String × Nat × FileState) (h : generate_dockerfile appId cfg fs = .ok res) :
    res.2.1 =
      match infer_port_from_start (cfg.start.getD "") with
      | some p => if p = 0 then default_port_for_runtime (pyLower (cfg.runtime.getD "")) else p
      | none => default_port_for_runtime (pyLower (cfg.runtime.getD "")) := by
  simp only [generate_dockerfile] at h
  split at h
  · injection h with h
    rw [← h]
  · split at h
    · injection h with h
      rw [← h]
    · exact absurd h (by simp)

theorem searchWith_cons_none (f : List Char → Option Nat) (x : Char) (l : List Char)
    (hx : f (x :: l) = none) : searchWith f (x :: l) = searchWith f l := by
  have h1 : searchWith f (x :: l) =
      match f (x :: l) with
      | some n => some n
      | none => searchWith f l := rfl
  rw [h1, hx]

theorem searchWith_cons_some (f : List Char → Option Nat) (x : Char) (l : List Char)
    (n : Nat) (hx : f (x :: l) = some n) : searchWith f (x :: l) = some n := by
  have h1 : searchWith f (x :: l) =
      match f (x :: l) with
      | some m => some m
      | none => searchWith f l := rfl
  rw [h1, hx]

theorem searchWith_append_nodash (f : List Char → Option Nat)
    (hf : ∀ x t, x ≠ '-' → f (x :: t) = none)
    (a r : List Char) (ha : ∀ c ∈ a, c ≠ '-') :
    searchWith f (a ++ r) = searchWith f r := by
  induction a with
  | nil => rfl
  | cons x rest ih =>
    rw [List.cons_append]
    rw [searchWith_cons_none f x (rest ++ r) (hf x _ (ha x (by simp)))]
    exact ih fun c hc => ha c (by simp [hc])

theorem searchWith_nodash_none (f : List Char → Option Nat)
    (hf : ∀ x t, x ≠ '-' → f (x :: t) = none)
    (a : List Char) (ha : ∀ c ∈ a, c ≠ '-') : searchWith f a = none := by
  have h1 := searchWith_append_nodash f hf a [] ha
  rw [List.append_nil] at h1
  rw [h1]
  rfl

theorem matchLit_dash_cons (cs : List Char) (x : Char) (t : List Char) (h : x ≠ '-') :
    matchLit ('-' :: cs) (x :: t) = none := by
  have h1 : matchLit ('-' :: cs) (x :: t) =
      if x = '-' then matchLit cs t else none := rfl
  rw [h1, if_neg h]

theorem portFlagLong_cons_ne (x : Char) (t : List Char) (h : x ≠ '-') :
    portFlagLong (x :: t) = none := by
  have h1 : portFlagLong (x :: t) =
      match matchLit ("--port".data) (x :: t) with
      | some rest => matchWsDigits rest
      | none => none := rfl
  rw [h1, show ("--port".data) = '-' :: "-port".data from rfl, matchLit_dash_cons _ _ _ h]

theorem portFlagEq_cons_ne (x : Char) (t : List Char) (h : x ≠ '-') :
    portFlagEq (x :: t) = none := by
  have h1 : portFlagEq (x :: t) =
      match matchLit ("--port=".data) (x :: t) with
      | some rest => matchDigitsHere rest
      | none => none := rfl
  rw [h1, show ("--port=".data) = '-' :: "-port=".data from rfl, matchLit_dash_cons _ _ _ h]

theorem portFlagShort_cons_ne (x : Char) (t : List Char) (h : x ≠ '-') :
    portFlagShort (x :: t) = none := by
  have h1 : portFlagShort (x :: t) =
      match matchLit ("-p".data) (x :: t) with
      | some rest => matchWsDigits rest
      | none => none := rfl
  rw [h1, show ("-p".data) = '-' :: "p".data from rfl, matchLit_dash_cons _ _ _ h]

theorem ne_dash_of_isDigit (c : Char) (h : c.isDigit = true) : c ≠ '-' := by
  intro he
  subst he
  exact absurd h (by decide)

theorem toNat_range_of_isDigit (c : Char) (h : c.isDigit = true) :
    48 ≤ c.toNat ∧ c.toNat ≤ 57 := by
  simp only [Char.isDigit, ge_iff_le, Bool.and_eq_true, decide_eq_true_eq] at h
  exact ⟨UInt32.le_toNat_of_le (by decide) h.1, UInt32.toNat_le_of_le (by decide) h.2⟩

theorem not_space_of_digit (c : Char) (h : c.isDigit = true) : pyIsSpace c = false := by
  have h1 := toNat_range_of_isDigit c h
  simp only [pyIsSpace, Bool.or_eq_false_iff, decide_eq_false_iff_not]
  omega

theorem takeWhile_digits_self (ds : List Char) (hd : ∀ c ∈ ds, c.isDigit = true) :
    takeDigits ds = ds := by
  induction ds with
  | nil => rfl
  | cons x rest ih =>
    rw [takeDigits, List.takeWhile_cons_of_pos (hd x (by simp))]
    rw [show List.takeWhile (fun c => c.isDigit) rest = takeDigits rest from rfl]
    rw [ih fun c hc => hd c (by simp [hc])]

theorem matchDigitsHere_digits (ds : List Char) (hne : ds ≠ [])
    (hd : ∀ c ∈ ds, c.isDigit = true) :
    matchDigitsHere ds = some (digitsToNat ds) := by
  simp only [matchDigitsHere]
  rw [takeWhile_digits_self ds hd, if_neg hne]

theorem matchWsDigits_space_digits (ds : List Char) (hne : ds ≠ [])
    (hd : ∀ c ∈ ds, c.isDigit = true) :
    matchWsDigits (' ' :: ds) = some (digitsToNat ds) := by
  rw [matchWsDigits]
  rw [List.takeWhile_cons_of_pos (by decide)]
  rw [if_neg (by simp)]
  rw [List.dropWhile_cons_of_pos (by decide)]
  rw [dropWhile_eq_self pyIsSpace ds ?hh]
  case hh =>
    intro x hx
    exact not_space_of_digit x (hd x (List.mem_of_mem_head? (by rw [hx]; rfl)))
  exact matchDigitsHere_digits ds hne hd

theorem portFlagLong_at_flag (ds : List Char) (hne : ds ≠ [])
    (hd : ∀ c ∈ ds, c.isDigit = true) :
    portFlagLong ("--port ".data ++ ds) = some (digitsToNat ds) := by
  have h1 : portFlagLong ("--port ".data ++ ds) = matchWsDigits (' ' :: ds) := rfl
  rw [h1]
  exact matchWsDigits_space_digits ds hne hd

theorem portFlagEq_at_flag (ds : List Char) (hne : ds ≠ [])
    (hd : ∀ c ∈ ds, c.isDigit = true) :
    portFlagEq ("--port=".data ++ ds) = some (digitsToNat ds) := by
  have h1 : portFlagEq ("--port=".data ++ ds) = matchDigitsHere ds := rfl
  rw [h1]
  exact matchDigitsHere_digits ds hne hd

theorem portFlagShort_at_flag (ds : List Char) (hne : ds ≠ [])
    (hd : ∀ c ∈ ds, c.isDigit = true) :
    portFlagShort ("-p ".data ++ ds) = some (digitsToNat ds) := by
  have h1 : portFlagShort ("-p ".data ++ ds) = matchWsDigits (' ' :: ds) := rfl
  rw [h1]
  exact matchWsDigits_space_digits ds hne hd

theorem infer_port_flag_long (a ds : List Char) (ha : ∀ c ∈ a, c ≠ '-')
    (hne : ds ≠ []) (hd : ∀ c ∈ ds, c.isDigit = true) :
    infer_port_from_start (String.mk (a ++ "--port ".data ++ ds)) =
      some (digitsToNat ds) := by
  have hstr : (String.mk (a ++ "--port ".data ++ ds)).data = a ++ "--port ".data ++ ds := rfl
  rw [infer_port_from_start, if_neg ?hemp, hstr, List.append_assoc]
  case hemp =>
    intro hcontra
    have hl : a ++ "--port ".data ++ ds = [] := congrArg String.data hcontra
    rcases List.append_eq_nil.mp hl with ⟨h1, _⟩
    rcases List.append_eq_nil.mp h1 with ⟨_, h2⟩
    exact absurd h2 (by decide)
  rw [searchWith_append_nodash portFlagLong portFlagLong_cons_ne a _ ha]
  rw [show ("--port ".data ++ ds) = '-' :: ('-' :: 'p' :: 'o' :: 'r' :: 't' :: ' ' :: ds)
    from rfl]
  rw [searchWith_cons_some portFlagLong '-' ('-' :: 'p' :: 'o' :: 'r' :: 't' :: ' ' :: ds)
    (digitsToNat ds) (portFlagLong_at_flag ds hne hd)]

theorem infer_port_flag_eq (a ds : List Char) (ha : ∀ c ∈ a, c ≠ '-')
    (hne : ds ≠ []) (hd : ∀ c ∈ ds, c.isDigit = true) :
    infer_port_from_start (String.mk (a ++ "--port=".data ++ ds)) =
      some (digitsToNat ds) := by
  have hstr : (String.mk (a ++ "--port=".data ++ ds)).data = a ++ "--port=".data ++ ds := rfl
  rw [infer_port_from_start, if_neg ?hemp, hstr, List.append_assoc]
  case hemp =>
    intro hcontra
    have hl : a ++ "--port=".data ++ ds = [] := congrArg String.data hcontra
    rcases List.append_eq_nil.mp hl with ⟨h1, _⟩
    rcases List.append_eq_nil.mp h1 with ⟨_, h2⟩
    exact absurd h2 (by decide)
  have hno1 : searchWith portFlagLong (a ++ ("--port=".data ++ ds)) = none := by
    rw [searchWith_append_nodash portFlagLong portFlagLong_cons_ne a _ ha]
    rw [show ("--port=".data ++ ds) = '-' :: ('-' :: 'p' :: 'o' :: 'r' :: 't' :: '=' :: ds)
      from rfl]
    rw [searchWith_cons_none portFlagLong '-' ('-' :: 'p' :: 'o' :: 'r' :: 't' :: '=' :: ds)
      rfl]
    rw [searchWith_cons_none portFlagLong '-' ('p' :: 'o' :: 'r' :: 't' :: '=' :: ds) rfl]
    rw [searchWith_cons_none portFlagLong 'p' _ (portFlagLong_cons_ne 'p' _ (by decide))]
    rw [searchWith_cons_none portFlagLong 'o' _ (portFlagLong_cons_ne 'o' _ (by decide))]
    rw [searchWith_cons_none portFlagLong 'r' _ (portFlagLong_cons_ne 'r' _ (by decide))]
    rw [searchWith_cons_none portFlagLong 't' _ (portFlagLong_cons_ne 't' _ (by decide))]
    rw [searchWith_cons_none portFlagLong '=' _ (portFlagLong_cons_ne '=' _ (by decide))]
    exact searchWith_nodash_none portFlagLong portFlagLong_cons_ne ds
      fun c hc => ne_dash_of_isDigit c (hd c hc)
  rw [hno1]
  rw [searchWith_append_nodash portFlagEq portFlagEq_cons_ne a _ ha]
  rw [show ("--port=".data ++ ds) = '-' :: ('-' :: 'p' :: 'o' :: 'r' :: 't' :: '=' :: ds)
    from rfl]
  rw [searchWith_cons_some portFlagEq '-' ('-' :: 'p' :: 'o' :: 'r' :: 't' :: '=' :: ds)
    (digitsToNat ds) (portFlagEq_at_flag ds hne hd)]

theorem infer_port_flag_short (a ds : List Char) (ha : ∀ c ∈ a, c ≠ '-')
    (hne : ds ≠ []) (hd : ∀ c ∈ ds, c.isDigit = true) :
    infer_port_from_start (String.mk (a ++ "-p ".data ++ ds)) =
      some (digitsToNat ds) := by
  have hstr : (String.mk (a ++ "-p ".data ++ ds)).data = a ++ "-p ".data ++ ds := rfl
  rw [infer_port_from_start, if_neg ?hemp, hstr, List.append_assoc]
  case hemp =>
    intro hcontra
    have hl : a ++ "-p ".data ++ ds = [] := congrArg String.data hcontra
    rcases List.append_eq_nil.mp hl with ⟨h1, _⟩
    rcases List.append_eq_nil.mp h1 with ⟨_, h2⟩
    exact absurd h2 (by decide)
  have hdig : ∀ c ∈ ds, c ≠ '-' := fun c hc => ne_dash_of_isDigit c (hd c hc)
  have hno1 : searchWith portFlagLong (a ++ ("-p ".data ++ ds)) = none := by
    rw [searchWith_append_nodash portFlagLong portFlagLong_cons_ne a _ ha]
    rw [show ("-p ".data ++ ds) = '-' :: ('p' :: ' ' :: ds) from rfl]
    rw [searchWith_cons_none portFlagLong '-' ('p' :: ' ' :: ds) rfl]
    rw [searchWith_cons_none portFlagLong 'p' _ (portFlagLong_cons_ne 'p' _ (by decide))]
    rw [searchWith_cons_none portFlagLong ' ' _ (portFlagLong_cons_ne ' ' _ (by decide))]
    exact searchWith_nodash_none portFlagLong portFlagLong_cons_ne ds hdig
  have hno2 : searchWith portFlagEq (a ++ ("-p ".data ++ ds)) = none := by
    rw [searchWith_append_nodash portFlagEq portFlagEq_cons_ne a _ ha]
    rw [show ("-p ".data ++ ds) = '-' :: ('p' :: ' ' :: ds) from rfl]
    rw [searchWith_cons_none portFlagEq '-' ('p' :: ' ' :: ds) rfl]
    rw [searchWith_cons_none portFlagEq 'p' _ (portFlagEq_cons_ne 'p' _ (by decide))]
    rw [searchWith_cons_none portFlagEq ' ' _ (portFlagEq_cons_ne ' ' _ (by decide))]
    exact searchWith_nodash_none portFlagEq portFlagEq_cons_ne ds hdig
  rw [hno1, hno2]
  rw [searchWith_append_nodash portFlagShort portFlagShort_cons_ne a _ ha]
  rw [show ("-p ".data ++ ds) = '-' :: ('p' :: ' ' :: ds) from rfl]
  rw [searchWith_cons_some portFlagShort '-' ('p' :: ' ' :: ds)
    (digitsToNat ds) (portFlagShort_at_flag ds hne hd)]

/-- Claim C1 counterexample: the manifest `type: server, runtime: node, port: 4000`
with no dockerfile yields `PORT=3000`, not the claimed `PORT=4000` — the
configured `server.port` is never read; and with a Dockerfile exposing `1111`
next to a start command carrying `--port 2222`, the Dockerfile's `EXPOSE` wins,
contradicting the claimed order (start flags before Dockerfile). -/
theorem port_config_counterexample :
    composePortOf (write_compose "demo" "/repo" c1cfg (fun _ => none) [] ⟨[], []⟩) =
        some "3000" ∧
      composePortOf (write_compose "demo" "/repo" c1cfg (fun _ => none) [] ⟨[], []⟩) ≠
        some "4000" ∧
      composePortOf (write_compose "demo" "/repo" c1cfgB c1oracle [] ⟨[], []⟩) =
        some "1111" ∧
      composePortOf (write_compose "demo" "/repo" c1cfgB c1oracle [] ⟨[], []⟩) ≠
        some "2222" :=
  ⟨by decide, by decide, by decide, by decide⟩

theorem generate_dockerfile_ignores_port (appId : String) (cfg : ServerCfg)
    (fs : FileState) (p : Option Nat) :
    generate_dockerfile appId { cfg with port := p } fs = generate_dockerfile appId cfg fs := by
  cases cfg
  rfl

theorem write_compose_port_no_dockerfile (appId repoDir : String) (cfg : ServerCfg)
    (fileLines : String → Option (List Char)) (ambient : EnvMap) (fs : FileState)
    (out : ComposeOut) (fs' : FileState)
    (hdf : pyTruthy cfg.dockerfile = false)
    (h : write_compose appId repoDir cfg fileLines ambient fs = .ok (out, fs')) :
    ∃ p : Nat,
      (("PORT" ∈ cfg.env → ambient.lookup "PORT" = none) →
        out.env.lookup "PORT" = some (toString p)) ∧
      (∀ q, infer_port_from_start (cfg.start.getD "") = some q → q ≠ 0 → p = q) ∧
      ((infer_port_from_start (cfg.start.getD "") = none ∨
          infer_port_from_start (cfg.start.getD "") = some 0) →
        p = default_port_for_runtime (cfg.runtime.getD "")) := by
  simp only [write_compose] at h
  rw [if_neg (by rw [hdf]; simp)] at h
  split at h
  · simp at h
  · next dpf heq =>
    split at heq
    · simp at heq
    · next gdpf hgen =>
      injection heq with heq
      subst heq
      dsimp only at h
      injection h with h
      rw [Prod.mk.injEq] at h
      obtain ⟨h1, _⟩ := h
      subst h1
      have hp := generate_dockerfile_ok_port (slugifyS appId) cfg _ gdpf hgen
      refine ⟨gdpf.2.1, (lookup_port_env ambient cfg.env _).2, ?_, ?_⟩
      · intro q hq hq0
        rw [hp, hq]
        dsimp only
        rw [if_neg hq0]
      · intro hcase
        rcases hcase with hs | hs
        · rw [hp, hs]
          dsimp only
          exact default_port_pyLower _
        · rw [hp, hs]
          dsimp only
          rw [if_pos rfl]
          exact default_port_pyLower _

theorem write_compose_port_with_dockerfile (appId repoDir : String) (cfg : ServerCfg)
    (fileLines : String → Option (List Char)) (ambient : EnvMap) (fs : FileState)
    (out : ComposeOut) (fs' : FileState) (df : String) (txt : List Char)
    (hdfeq : cfg.dockerfile = some df) (hdfne : df ≠ "")
    (hfl : fileLines (repoDir ++ "/" ++ df) = some txt)
    (h : write_compose appId repoDir cfg fileLines ambient fs = .ok (out, fs')) :
    ∃ p : Nat,
      (("PORT" ∈ cfg.env → ambient.lookup "PORT" = none) →
        out.env.lookup "PORT" = some (toString p)) ∧
      (∀ e, infer_port_from_dockerfile (some txt) = some e → p = e) ∧
      (infer_port_from_dockerfile (some txt) = none →
        ∀ q, infer_port_from_start (cfg.start.getD "") = some q → p = q) ∧
      (infer_port_from_dockerfile (some txt) = none →
        infer_port_from_start (cfg.start.getD "") = none →
        p = default_port_for_runtime (cfg.runtime.getD "")) := by
  simp only [write_compose] at h
  have hdft : pyTruthy cfg.dockerfile = true := by
    rw [hdfeq]
    simpa [pyTruthy] using hdfne
  rw [if_pos hdft] at h
  rw [hdfeq] at h
  simp only [Option.getD_some] at h
  rw [hfl] at h
  dsimp only at h
  injection h with h
  rw [Prod.mk.injEq] at h
  obtain ⟨h1, _⟩ := h
  subst h1
  refine ⟨_, (lookup_port_env ambient cfg.env _).2, ?_, ?_, ?_⟩
  · intro e he
    simp [he]
  · intro hnone q hq
    simp [hnone, hq]
  · intro hnone hstart
    simp [hnone, hstart]

/-- Claim C1 (amended): the configured `server.port` is never consulted —
`write_compose` is invariant in the `port` field.  The internal port is resolved
by ordered fallback, first match winning: with a named Dockerfile, the port
parsed from its `EXPOSE` declaration, then a port parsed from the start command's
flags, then the runtime default; with no dockerfile, a port parsed from the start
command's flags (a parsed `0` falling back to the default, by Python truthiness),
then the runtime default.  The start-flag parser recognises `--port N`,
`--port=N` and `-p N` (stated for any dash-free prefix and any digit run), and
the runtime default is 8000 for python and 3000 otherwise.  The example manifest
(`runtime: node, port: 4000`, no dockerfile) therefore yields `PORT=3000` and a
routing label targeting port `3000` under path prefix `/app/demo`. -/
theorem port_resolution_amended :
    (∀ (cfg : ServerCfg) (appId repoDir : String)
        (fileLines : String → Option (List Char)) (ambient : EnvMap) (fs : FileState)
        (p : Option Nat),
        write_compose appId repoDir { cfg with port := p } fileLines ambient fs =
          write_compose appId repoDir { cfg with port := none } fileLines ambient fs) ∧
      (∀ (appId repoDir : String) (cfg : ServerCfg)
          (fileLines : String → Option (List Char)) (ambient : EnvMap) (fs : FileState)
          (out : ComposeOut) (fs' : FileState),
        pyTruthy cfg.dockerfile = false →
        write_compose appId repoDir cfg fileLines ambient fs = .ok (out, fs') →
        ∃ p : Nat,
          (("PORT" ∈ cfg.env → ambient.lookup "PORT" = none) →
            out.env.lookup "PORT" = some (toString p)) ∧
          (∀ q, infer_port_from_start (cfg.start.getD "") = some q → q ≠ 0 → p = q) ∧
          ((infer_port_from_start (cfg.start.getD "") = none ∨
              infer_port_from_start (cfg.start.getD "") = some 0) →
            p = default_port_for_runtime (cfg.runtime.getD ""))) ∧
      (∀ (appId repoDir : String) (cfg : ServerCfg)
          (fileLines : String → Option (List Char)) (ambient : EnvMap) (fs : FileState)
          (out : ComposeOut) (fs' : FileState) (df : String) (txt : List Char),
        cfg.dockerfile = some df → df ≠ "" →
        fileLines (repoDir ++ "/" ++ df) = some txt →
        write_compose appId repoDir cfg fileLines ambient fs = .ok (out, fs') →
        ∃ p : Nat,
          (("PORT" ∈ cfg.env → ambient.lookup "PORT" = none) →
            out.env.lookup "PORT" = some (toString p)) ∧
          (∀ e, infer_port_from_dockerfile (some txt) = some e → p = e) ∧
          (infer_port_from_dockerfile (some txt) = none →
            ∀ q, infer_port_from_start (cfg.start.getD "") = some q → p = q) ∧
          (infer_port_from_dockerfile (some txt) = none →
            infer_port_from_start (cfg.start.getD "") = none →
            p = default_port_for_runtime (cfg.runtime.getD ""))) ∧
      (∀ r : String,
        (pyLower r = "python" → default_port_for_runtime r = 8000) ∧
          (pyLower r ≠ "python" → default_port_for_runtime r = 3000)) ∧
      (∀ a ds : List Char, (∀ c ∈ a, c ≠ '-') → ds ≠ [] →
        (∀ c ∈ ds, c.isDigit = true) →
        infer_port_from_start (String.mk (a ++ "--port ".data ++ ds)) =
            some (digitsToNat ds) ∧
          infer_port_from_start (String.mk (a ++ "--port=".data ++ ds)) =
            some (digitsToNat ds) ∧
          infer_port_from_start (String.mk (a ++ "-p ".data ++ ds)) =
            some (digitsToNat ds)) ∧
      composePortOf (write_compose "demo" "/repo" c1cfg (fun _ => none) [] ⟨[], []⟩) =
        some "3000" ∧
      "traefik.http.services.demo.loadbalancer.server.port=3000" ∈
        composeLabelsOf (write_compose "demo" "/repo" c1cfg (fun _ => none) [] ⟨[], []⟩) ∧
      "traefik.http.routers.demo.rule=Host(`vibes.chaoticbest.com`) && PathPrefix(`/app/demo`)" ∈
        composeLabelsOf (write_compose "demo" "/repo" c1cfg (fun _ => none) [] ⟨[], []⟩) := by
  refine ⟨?_, write_compose_port_no_dockerfile, write_compose_port_with_dockerfile, ?_, ?_,
    by decide, by decide, by decide⟩
  · intro cfg appId repoDir fileLines ambient fs p
    cases cfg
    rfl
  · intro r
    constructor
    · intro hp
      rw [default_port_for_runtime, if_pos hp]
    · intro hp
      rw [default_port_for_runtime, if_neg hp]
  · intro a ds ha hne hd
    exact ⟨infer_port_flag_long a ds ha hne hd, infer_port_flag_eq a ds ha hne hd,
      infer_port_flag_short a ds ha hne hd⟩

/-- Claim C1 witness for the amended theorem: the no-dockerfile clause applied at
a concrete node config whose start command carries `--port 5005` (its resolved
port must equal 5005), and the `--port=N` pattern clause at a concrete command. -/
theorem port_resolution_amended_witness :
    (∃ p : Nat,
      (("PORT" ∈ c1cfgC.env → List.lookup "PORT" ([] : EnvMap) = none) →
        c1outC.env.lookup "PORT" = some (toString p)) ∧
      (∀ q, infer_port_from_start (c1cfgC.start.getD "") = some q → q ≠ 0 → p = q) ∧
      ((infer_port_from_start (c1cfgC.start.getD "") = none ∨
          infer_port_from_start (c1cfgC.start.getD "") = some 0) →
        p = default_port_for_runtime (c1cfgC.runtime.getD ""))) ∧
    infer_port_from_start
        (String.mk ("node run ".data ++ "--port=".data ++ ('8' :: '0' :: '8' :: '0' :: []))) =
      some (digitsToNat ('8' :: '0' :: '8' :: '0' :: [])) := by
  constructor
  · exact port_resolution_amended.2.1 "demo" "/repo" c1cfgC (fun _ => none) [] ⟨[], []⟩
      c1outC c1fsC rfl rfl
  · exact (port_resolution_amended.2.2.2.2.1 ("node run ".data)
      ('8' :: '0' :: '8' :: '0' :: []) (by decide) (by decide) (by decide)).2.1

/-- Claim C9 counterexample: whitelisting `PORT` itself in `server.env` with an
ambient `PORT` present makes the pass-through overwrite the resolved port: the
environment maps `PORT` to the ambient string, not to the decimal of the
resolved internal port (3000 here). -/
theorem compose_port_counterexample :
    composePortOf
        (write_compose "demo" "/repo" c9cfg (fun _ => none) [("PORT", "7777")] ⟨[], []⟩) =
        some "7777" ∧
      composePortOf
          (write_compose "demo" "/repo" c9cfg (fun _ => none) [("PORT", "7777")] ⟨[], []⟩) ≠
        some "3000" :=
  ⟨by decide, by decide⟩

/-- Claim C9 (amended): every successful `write_compose` produces an environment
that contains the key `PORT`; unless `PORT` itself is whitelisted in `server.env`
with an ambient value (in which case the ambient value wins), it is mapped to the
decimal string of the resolved internal port; and whenever neither the start
command nor a provided Dockerfile yields a port, that resolved port is the
runtime-specific default (8000 for python, 3000 otherwise). -/
theorem write_compose_always_port (appId repoDir : String) (cfg : ServerCfg)
    (fileLines : String → Option (List Char)) (ambient : EnvMap) (fs : FileState)
    (out : ComposeOut) (fs' : FileState)
    (h : write_compose appId repoDir cfg fileLines ambient fs = .ok (out, fs')) :
    (∃ v, out.env.lookup "PORT" = some v) ∧
      ∃ p : Nat,
        (("PORT" ∈ cfg.env → ambient.lookup "PORT" = none) →
          out.env.lookup "PORT" = some (toString p)) ∧
        (infer_port_from_start (cfg.start.getD "") = none →
          (∀ df, cfg.dockerfile = some df → df ≠ "" →
            infer_port_from_dockerfile (fileLines (repoDir ++ "/" ++ df)) = none) →
          p = default_port_for_runtime (cfg.runtime.getD "")) := by
  simp only [write_compose] at h
  by_cases hdf : pyTruthy cfg.dockerfile = true
  · rw [if_pos hdf] at h
    obtain ⟨df, hdfeq⟩ : ∃ df, cfg.dockerfile = some df := by
      cases hd : cfg.dockerfile with
      | none => rw [hd] at hdf; simp [pyTruthy] at hdf
      | some d => exact ⟨d, rfl⟩
    have hdfne : df ≠ "" := by
      rw [hdfeq] at hdf
      simpa [pyTruthy] using hdf
    cases hfl : fileLines (repoDir ++ "/" ++ cfg.dockerfile.getD "") with
    | none =>
      rw [hfl] at h
      simp at h
    | some txt =>
      rw [hfl] at h
      dsimp only at h
      injection h with h
      rw [Prod.mk.injEq] at h
      obtain ⟨h1, _⟩ := h
      subst h1
      refine ⟨(lookup_port_env ambient cfg.env _).1, _,
        (lookup_port_env ambient cfg.env _).2, ?_⟩
      intro hstart hall
      have hfl2 : fileLines (repoDir ++ "/" ++ df) = some txt := by
        rw [hdfeq] at hfl
        simpa using hfl
      have hdfnone : infer_port_from_dockerfile (some txt) = none := by
        have hx := hall df hdfeq hdfne
        rw [hfl2] at hx
        exact hx
      simp [hdfnone, hstart]
  · rw [if_neg hdf] at h
    split at h
    · simp at h
    · next dpf heq =>
      split at heq
      · simp at heq
      · next gdpf hgen =>
        injection heq with heq
        subst heq
        dsimp only at h
        injection h with h
        rw [Prod.mk.injEq] at h
        obtain ⟨h1, _⟩ := h
        subst h1
        refine ⟨(lookup_port_env ambient cfg.env _).1, _,
          (lookup_port_env ambient cfg.env _).2, ?_⟩
        intro hstart _
        have hp := generate_dockerfile_ok_port (slugifyS appId) cfg _ gdpf hgen
        rw [hstart] at hp
        rw [hp, default_port_pyLower]

/-- Claim C9 witness for the amended theorem: a concrete node config with no start
command, no dockerfile and no whitelist collision — `PORT` is present and equals
the default `3000`. -/
theorem write_compose_always_port_witness :
    (∃ v, c9out.env.lookup "PORT" = some v) ∧
      ∃ p : Nat,
        (("PORT" ∈ c9cfgB.env → List.lookup "PORT" ([] : EnvMap) = none) →
          c9out.env.lookup "PORT" = some (toString p)) ∧
        (infer_port_from_start (c9cfgB.start.getD "") = none →
          (∀ df, c9cfgB.dockerfile = some df → df ≠ "" →
            infer_port_from_dockerfile
              ((fun _ => (none : Option (List Char))) ("/repo" ++ "/" ++ df)) = none) →
          p = default_port_for_runtime (c9cfgB.runtime.getD "")) :=
  write_compose_always_port "w" "/repo" c9cfgB (fun _ => none) [] ⟨[], []⟩ c9out c9fs rfl

end Vibe
